import Mathlib

/-!
The caffe2/core/hip layer: thread-local HIP objects, HIPContext and the helper macros.

A shallow embedding of `src/caffe2/core/hip/context_gpu.h` and
`src/caffe2/core/hip/common_gpu.h`.

The C++ code is stateful and talks to external libraries (c10 stream pool,
hipBLAS, the HIP runtime).  The embedding threads an explicit `World` through
every operation.  The world holds the fields of `ThreadLocalHIPObjects`, the
thread-local state kept by c10 (current stream per device, active device), and
a `trace` of every external call made so far, in program order.

What an external call answers is not decided by this code, so it is an input:
* the stream handed out by the stream pool is read from `Env.getStreamFromPool`,
* the status of a vendor call is an argument of the operation that makes it.

A C++ exception leaves the side effects made before the throw in place, so a
fallible operation returns a pair: `Except Error _` and the world after it.
-/

namespace caffe2

/-! ## Basic types -/

/-- Index of a GPU (`c10::DeviceIndex`), used as an index into `hip_streams_`.
The source indexes the array without a bound check; indices are taken to be
valid, and the array is a total map. -/
abbrev DeviceIndex := Nat

/-- Logical stream id (`c10::StreamId`, a signed 64 bit integer). -/
abbrev StreamId := Int

/-- Value of type `c10::hip::HIPStream`: a device and the id of the stream on
that device.  Equality and hashing of the C++ class go by these two. -/
structure HIPStream where
  device_index : DeviceIndex
  id : Int
  deriving DecidableEq, Repr

/-- Raw stream `hipStream_t` (a pointer value). -/
abbrev hipStream_t := Nat

/-- Status `hipError_t` of a HIP runtime call.  Only `hipSuccess` and
`hipErrorNotReady` are told apart by the code. -/
inductive hipError_t
  | hipSuccess
  | hipErrorNotReady
  | other (code : Nat)
  deriving DecidableEq, Repr

/-- Status `hipblasStatus_t` of a hipBLAS call. -/
inductive hipblasStatus_t
  | HIPBLAS_STATUS_SUCCESS
  | other (code : Nat)
  deriving DecidableEq, Repr

/-- Status `hiprandStatus_t` of a hipRAND call. -/
inductive hiprandStatus_t
  | HIPRAND_STATUS_SUCCESS
  | other (code : Nat)
  deriving DecidableEq, Repr

/-- What `hiprandCreateGenerator(&hiprand_generator_, ...)` answers: on success
a generator (never null) is stored through the pointer; on failure a status
other than success is returned and the pointee is left as it was. -/
inductive GeneratorResult
  | created (g : Nat)
  | failed (code : Nat)
  deriving DecidableEq, Repr

/-- Handle `hipblasHandle_t`: `none` is `nullptr`, `some h` a handle made by
`hipblasCreate`. -/
abbrev hipblasHandle_t := Option Nat

/-- Pointer modes of hipBLAS. -/
inductive hipblasPointerMode_t
  | HIPBLAS_POINTER_MODE_HOST
  | HIPBLAS_POINTER_MODE_DEVICE
  deriving DecidableEq, Repr

/-- What `hipblasCreate(&r)` answers: on success a handle (never null) is
stored through the pointer; on failure a status other than success is returned
and the pointee is left as it was. -/
inductive CreateResult
  | created (h : Nat)
  | failed (code : Nat)
  deriving DecidableEq, Repr

/-- Status returned by `hipblasCreate`. -/
def CreateResult.status : CreateResult → hipblasStatus_t
  | .created _ => .HIPBLAS_STATUS_SUCCESS
  | .failed code => .other code

/-- Device kinds (`c10::DeviceType`), as far as the code names them. -/
inductive DeviceType
  | CPU
  | HIP
  deriving DecidableEq, Repr

/-- Exceptions the code can raise. -/
inductive Error
  /-- The exception `caffe2::EnforceNotMet`, thrown by the `CAFFE_ENFORCE` family. -/
  | EnforceNotMet (msg : String)
  /-- The exception `c10::Error`, thrown by `C10_HIP_CHECK`. -/
  | c10Error (status : hipError_t)
  /-- An exception thrown by an external callee and passed through. -/
  | external (msg : String)
  deriving DecidableEq, Repr

deriving instance DecidableEq for Except

/-- State of class `HIPContext`: the members `gpu_id_`, `random_seed_` and
`hiprand_generator_` (`none` is `nullptr`). -/
structure HIPContext where
  gpu_id_ : DeviceIndex
  random_seed_ : Int
  hiprand_generator_ : Option Nat
  deriving DecidableEq, Repr

/-- One external call, with its arguments and (where it has one) the status it
returned. -/
inductive Call
  | getStreamFromPool (isHighPriority : Bool) (gpu : DeviceIndex)
  | setCurrentHIPStream (s : HIPStream)
  | CaffeHipSetDevice (id : DeviceIndex)
  | hipblasCreate (status : hipblasStatus_t) (r : hipblasHandle_t)
  | hipblasSetPointerMode (h : Nat) (mode : hipblasPointerMode_t) (status : hipblasStatus_t)
  | hipblasSetStream (h : Nat) (s : HIPStream) (status : hipblasStatus_t)
  | hipblasDestroy (h : Nat) (status : hipblasStatus_t)
  | hipStreamQuery (stream : hipStream_t) (status : hipError_t)
  | hipGetLastError
  | hipStreamSynchronize (stream : hipStream_t) (status : hipError_t)
  | eventRecord (ev : Nat) (type : DeviceType) (context : HIPContext) (err_msg : Option String)
  | checkFailed (msg : String)
  | hiprandCreateGenerator (status : hiprandStatus_t) (g : Option Nat)
  | hiprandSetPseudoRandomGeneratorSeed (g : Nat) (seed : Int) (status : hiprandStatus_t)
  | hiprandSetStream (g : Nat) (stream : hipStream_t) (status : hiprandStatus_t)
  deriving DecidableEq, Repr

/-- The external stream facility of c10, as seen from one thread. -/
structure Env where
  /-- Result of `c10::hip::getStreamFromPool(isHighPriority, gpu)`: the stream
  handed out at the `k`-th request (counted from 0) for that device. -/
  getStreamFromPool : Bool → DeviceIndex → Nat → HIPStream
  /-- Method `HIPStream::stream()`: the raw stream behind a `HIPStream`. -/
  stream : HIPStream → hipStream_t

/-- The state an operation works on. -/
structure World where
  /-- Member `hip_streams_` of `ThreadLocalHIPObjects`: one vector per device. -/
  hip_streams_ : DeviceIndex → List HIPStream
  /-- Member `hipblas_handles_` of `ThreadLocalHIPObjects`: the entries of the
  unordered map, in iteration order. -/
  hipblas_handles_ : List (HIPStream × hipblasHandle_t)
  /-- Current stream per device, thread-local state of c10. -/
  current_stream : DeviceIndex → HIPStream
  /-- Number of `getStreamFromPool(false, gpu)` requests made so far. -/
  acquired : DeviceIndex → Nat
  /-- Active device of the thread. -/
  active_device : DeviceIndex
  /-- External calls made so far, oldest first. -/
  trace : List Call

/-- Append one external call to the trace. -/
def World.log (w : World) (c : Call) : World :=
  { w with trace := w.trace ++ [c] }

/-! ## Enforce and check macros -/

/-- Macro `CAFFE_ENFORCE(cond, msg)`: throws `EnforceNotMet` when `cond` is false. -/
def CAFFE_ENFORCE (cond : Bool) (msg : String) : Except Error Unit :=
  if cond then .ok () else .error (.EnforceNotMet msg)

/-- Macro `CAFFE_ENFORCE_EQ(a, b, ...)`: throws `EnforceNotMet` unless `a == b`. -/
def CAFFE_ENFORCE_EQ {α : Type} [DecidableEq α] (a b : α) (msg : String) : Except Error Unit :=
  if a = b then .ok () else .error (.EnforceNotMet msg)

/-- Macro `CAFFE_ENFORCE_LE(a, b)`: throws `EnforceNotMet` unless `a <= b`. -/
def CAFFE_ENFORCE_LE (a b : Int) : Except Error Unit :=
  if a ≤ b then .ok () else .error (.EnforceNotMet "")

/-- Macro `HIP_ENFORCE(condition)` of common_gpu.h:
it is `CAFFE_ENFORCE_EQ(error, hipSuccess, "Error at: ", ...)`. -/
def HIP_ENFORCE (error : hipError_t) : Except Error Unit :=
  CAFFE_ENFORCE_EQ error .hipSuccess "Error at: "

/-- Macro `HIPBLAS_ENFORCE(condition)` of common_gpu.h:
it is `CAFFE_ENFORCE_EQ(status, HIPBLAS_STATUS_SUCCESS, "Error at: ", ...)`. -/
def HIPBLAS_ENFORCE (status : hipblasStatus_t) : Except Error Unit :=
  CAFFE_ENFORCE_EQ status .HIPBLAS_STATUS_SUCCESS "Error at: "

/-- Macro `HIPRAND_ENFORCE(condition)` of common_gpu.h:
it is `CAFFE_ENFORCE_EQ(status, HIPRAND_STATUS_SUCCESS, "Error at: ", ...)`. -/
def HIPRAND_ENFORCE (status : hiprandStatus_t) : Except Error Unit :=
  CAFFE_ENFORCE_EQ status .HIPRAND_STATUS_SUCCESS "Error at: "

/-- Macro `TORCH_CHECK_NOTNULL(ptr)`: fails when the pointer is null. -/
def TORCH_CHECK_NOTNULL (ptr : Option Nat) : Except Error Unit :=
  if ptr.isSome then .ok () else .error (.external "Check failed: must be non NULL")

/-- Macro `C10_HIP_CHECK(status)`: throws `c10::Error` unless the status is
`hipSuccess`. -/
def C10_HIP_CHECK (status : hipError_t) : Except Error Unit :=
  if status = .hipSuccess then .ok () else .error (.c10Error status)

/-- What a failed `CHECK(cond) << msg` does after writing its message to the
log.  The macro is not defined by the two headers embedded here but by the
logging header `caffe2/core/logging.h`, so its behaviour is a parameter:
`fatal` is the behaviour of glog and of its c10 replacement (the message is
logged with severity FATAL and the process is aborted), `logOnly` returns to
the caller after logging. -/
inductive CheckFailure
  | fatal
  | logOnly
  deriving DecidableEq, Repr

/-- Macro `CHECK(cond) << msg`.  The result says whether control comes back to
the caller; a failed check is recorded in the trace. -/
def CHECK (sem : CheckFailure) (cond : Bool) (msg : String) (w : World) : Bool × World :=
  if cond then (true, w) else (decide (sem = .logOnly), w.log (Call.checkFailed msg))

/-- Macro `HIPBLAS_CHECK(condition)` of common_gpu.h:
it is `CHECK(status == HIPBLAS_STATUS_SUCCESS) << hipblasGetErrorString(status)`. -/
def HIPBLAS_CHECK (sem : CheckFailure) (status : hipblasStatus_t) (w : World) : Bool × World :=
  CHECK sem (decide (status = .HIPBLAS_STATUS_SUCCESS)) "hipblas error" w

/-! ## External collaborators -/

/-- Modelled from the spec: `AcquireStream(highPriority, device)` of the
stream facility (c10), which hands out a stream; the request is counted. -/
def getStreamFromPool (E : Env) (isHighPriority : Bool) (gpu : DeviceIndex) (w : World) :
    HIPStream × World :=
  (E.getStreamFromPool isHighPriority gpu (w.acquired gpu),
   { w with
     acquired := Function.update w.acquired gpu (w.acquired gpu + 1)
     trace := w.trace ++ [Call.getStreamFromPool isHighPriority gpu] })

/-- Modelled from the spec: `SetCurrent(device, stream)` of the stream
facility; the device is the one the stream belongs to. -/
def setCurrentHIPStream (s : HIPStream) (w : World) : World :=
  { w with
    current_stream := Function.update w.current_stream s.device_index s
    trace := w.trace ++ [Call.setCurrentHIPStream s] }

/-- Modelled from the spec: `GetCurrent(device)` of the stream facility. -/
def getCurrentHIPStream (gpu : DeviceIndex) (w : World) : HIPStream :=
  w.current_stream gpu

/-- Modelled from the spec: `SetActiveDevice(id)`, declared in common_gpu.h and
defined elsewhere. -/
def CaffeHipSetDevice (id : DeviceIndex) (w : World) : World :=
  { w with active_device := id, trace := w.trace ++ [Call.CaffeHipSetDevice id] }

/-- Scope guarded by `HIPGuard guard(dev)`: the active device is `dev` inside
the scope and is put back when the scope is left, by return or by exception. -/
def withHIPGuard {α : Type} (dev : DeviceIndex) (body : World → α × World) (w : World) :
    α × World :=
  let r := body { w with active_device := dev }
  (r.1, { r.2 with active_device := w.active_device })

/-! ## ThreadLocalHIPObjects -/

/-- The conversion `static_cast<size_t>(stream_id)` on a 64 bit target. -/
def size_t_cast (x : Int) : Nat :=
  (x % (2 ^ 64 : Int)).toNat

/-- One pass of the body of the while loop in `GetHIPStream`:
`gpu_streams.emplace_back(getStreamFromPool(false, gpu))`. -/
def emplace_back_stream (E : Env) (gpu : DeviceIndex) (w : World) : World :=
  let r := getStreamFromPool E false gpu w
  { r.2 with hip_streams_ := Function.update r.2.hip_streams_ gpu (r.2.hip_streams_ gpu ++ [r.1]) }

/-- The loop `while (gpu_streams.size() <= static_cast<size_t>(stream_id))` of
`GetHIPStream`, with `target` the converted stream id.  The first argument
bounds the number of passes; `GetHIPStream` passes the number of missing
entries, which is what the loop needs (see `GetHIPStream_loop_exit`). -/
def GetHIPStream_loop (E : Env) (gpu : DeviceIndex) (target : Nat) : Nat → World → World
  | 0, w => w
  | fuel + 1, w =>
    if (w.hip_streams_ gpu).length ≤ target then
      GetHIPStream_loop E gpu target fuel (emplace_back_stream E gpu w)
    else w

/-- Method `ThreadLocalHIPObjects::GetHIPStream(gpu, stream_id)`.  The result
is `gpu_streams[stream_id]`; the index is in range after the loop, the stream
given to `getD` is never used. -/
def GetHIPStream (E : Env) (gpu : DeviceIndex) (stream_id : StreamId) (w : World) :
    HIPStream × World :=
  let target := size_t_cast stream_id
  let w1 := GetHIPStream_loop E gpu target (target + 1 - (w.hip_streams_ gpu).length) w
  ((w1.hip_streams_ gpu).getD target ⟨gpu, 0⟩, w1)

/-- Method `ThreadLocalHIPObjects::SetCurrentStreamId(gpu, stream_id)`. -/
def SetCurrentStreamId (E : Env) (gpu : DeviceIndex) (stream_id : StreamId) (w : World) : World :=
  if stream_id ≠ -1 then
    let r := GetHIPStream E gpu stream_id w
    setCurrentHIPStream r.1 r.2
  else w

/-- Method `ThreadLocalHIPObjects::GetStream(gpu)`:
the raw stream `getCurrentHIPStream(gpu).stream()`. -/
def GetStream (E : Env) (gpu : DeviceIndex) (w : World) : hipStream_t :=
  E.stream (getCurrentHIPStream gpu w)

/-- Method `ThreadLocalHIPObjects::GetStream(gpu, stream_id)`:
the raw stream `GetHIPStream(gpu, stream_id).stream()`. -/
def GetStreamById (E : Env) (gpu : DeviceIndex) (stream_id : StreamId) (w : World) :
    hipStream_t × World :=
  let r := GetHIPStream E gpu stream_id w
  (E.stream r.1, r.2)

/-- Lookup in the handle map: the mapped value of the entry with key `s`, if
there is such an entry. -/
def findHandle (s : HIPStream) : List (HIPStream × hipblasHandle_t) → Option hipblasHandle_t
  | [] => none
  | e :: rest => if e.1 = s then some e.2 else findHandle s rest

/-- Write `h` to the mapped value of the entry with key `s` (assignment through
the reference `r`). -/
def assignHandle (s : HIPStream) (h : hipblasHandle_t) :
    List (HIPStream × hipblasHandle_t) → List (HIPStream × hipblasHandle_t)
  | [] => []
  | e :: rest => if e.1 = s then (e.1, h) :: rest else e :: assignHandle s h rest

/-- The map after `hipblas_handles_[s]`: an entry with a null handle is added
when the key is not there yet. -/
def subscriptHandle (s : HIPStream) (m : List (HIPStream × hipblasHandle_t)) :
    List (HIPStream × hipblasHandle_t) :=
  match findHandle s m with
  | some _ => m
  | none => m ++ [(s, none)]

/-- The handle the reference `r = hipblas_handles_[s]` refers to. -/
def handleAt (s : HIPStream) (m : List (HIPStream × hipblasHandle_t)) : hipblasHandle_t :=
  match findHandle s m with
  | some h => h
  | none => none

/-- Body of `ThreadLocalHIPObjects::GetHandle(hip_stream)` after the guard.
`create`, `setPointerMode` and `setStream` are what the three vendor calls
answer, should they be made. -/
def GetHandle_body (hip_stream : HIPStream) (create : CreateResult)
    (setPointerMode setStream : hipblasStatus_t) (w : World) :
    Except Error hipblasHandle_t × World :=
  -- auto& r = hipblas_handles_[hip_stream];
  let w0 := { w with hipblas_handles_ := subscriptHandle hip_stream w.hipblas_handles_ }
  match handleAt hip_stream w0.hipblas_handles_ with
  | some h => (.ok (some h), w0)
  | none =>
    -- HIPBLAS_ENFORCE(hipblasCreate(&r));
    match create with
    | .failed code =>
      let w1 := w0.log (Call.hipblasCreate (.other code) none)
      match HIPBLAS_ENFORCE (.other code) with
      | .error e => (.error e, w1)
      | .ok _ => (.ok none, w1) -- not reached: the status is not success
    | .created h =>
      let w1 := { w0 with
        hipblas_handles_ := assignHandle hip_stream (some h) w0.hipblas_handles_
        trace := w0.trace ++ [Call.hipblasCreate .HIPBLAS_STATUS_SUCCESS (some h)] }
      -- HIPBLAS_ENFORCE(hipblasSetPointerMode(r, HIPBLAS_POINTER_MODE_HOST));
      let w2 := w1.log (Call.hipblasSetPointerMode h .HIPBLAS_POINTER_MODE_HOST setPointerMode)
      match HIPBLAS_ENFORCE setPointerMode with
      | .error e => (.error e, w2)
      | .ok _ =>
        -- HIPBLAS_ENFORCE(hipblasSetStream(r, hip_stream));
        let w3 := w2.log (Call.hipblasSetStream h hip_stream setStream)
        match HIPBLAS_ENFORCE setStream with
        | .error e => (.error e, w3)
        | .ok _ => (.ok (some h), w3)

/-- Method `ThreadLocalHIPObjects::GetHandle(c10::hip::HIPStream hip_stream)`. -/
def GetHandle (hip_stream : HIPStream) (create : CreateResult)
    (setPointerMode setStream : hipblasStatus_t) (w : World) :
    Except Error hipblasHandle_t × World :=
  withHIPGuard hip_stream.device_index
    (GetHandle_body hip_stream create setPointerMode setStream) w

/-- Method `ThreadLocalHIPObjects::GetHandle(DeviceIndex gpu)`:
the call `GetHandle(getCurrentHIPStream(gpu))`. -/
def GetHandleOfDevice (gpu : DeviceIndex) (create : CreateResult)
    (setPointerMode setStream : hipblasStatus_t) (w : World) :
    Except Error hipblasHandle_t × World :=
  GetHandle (getCurrentHIPStream gpu w) create setPointerMode setStream w

/-- The loop of the destructor over `hipblas_handles_`:
`if (element.second) HIPBLAS_CHECK(hipblasDestroy(element.second));`.
`outcome k` is the status the `k`-th call of `hipblasDestroy` reports, `k`
counts the calls made so far.  The Boolean result is `true` when the loop ran
to its end and `false` when a fatal check ended the process inside it. -/
def destroy_handles (sem : CheckFailure) (outcome : Nat → hipblasStatus_t) :
    Nat → List (HIPStream × hipblasHandle_t) → World → Bool × World
  | _, [], w => (true, w)
  | k, element :: rest, w =>
    match element.2 with
    | none => destroy_handles sem outcome k rest w
    | some h =>
      let status := outcome k
      let r := HIPBLAS_CHECK sem status (w.log (Call.hipblasDestroy h status))
      if r.1 then destroy_handles sem outcome (k + 1) rest r.2 else (false, r.2)

/-- Destructor of `ThreadLocalHIPObjects` (the hipBLAS part; the MIOpen part is
compiled only with `CAFFE2_USE_MIOPEN`). -/
def ThreadLocalHIPObjects_destructor (sem : CheckFailure) (outcome : Nat → hipblasStatus_t)
    (w : World) : Bool × World :=
  destroy_handles sem outcome 0 w.hipblas_handles_ w

/-- Constructor of `ThreadLocalHIPObjects`: every vector of `hip_streams_` is
empty and so is the handle map; the state outside the object is as it was. -/
def ThreadLocalHIPObjects_new (w : World) : World :=
  { w with hip_streams_ := fun _ => [], hipblas_handles_ := [] }

/-! ## HIPContext -/

/-- Method `HIPContext::SwitchToDevice(stream_id)`. -/
def HIPContext.SwitchToDevice (E : Env) (ctx : HIPContext) (stream_id : StreamId) (w : World) :
    World :=
  CaffeHipSetDevice ctx.gpu_id_ (SetCurrentStreamId E ctx.gpu_id_ stream_id w)

/-- Method `HIPContext::Record(ev, err_msg)`.  The event pointer `ev` is `none`
when null; `record` is what `Event::Record` does when called (it returns or
throws). -/
def HIPContext.Record (ctx : HIPContext) (ev : Option Nat) (err_msg : Option String)
    (record : Except Error Unit) (w : World) : Except Error Unit × World :=
  -- CAFFE_ENFORCE(ev, "Event must not be null.");
  match CAFFE_ENFORCE ev.isSome "Event must not be null." with
  | .error e => (.error e, w)
  | .ok _ =>
    -- ev->Record(HIP, this, err_msg);
    match ev with
    | some e => (record, w.log (Call.eventRecord e .HIP ctx err_msg))
    | none => (.ok (), w)

/-- Method `HIPContext::FinishDeviceComputation()`:
`HIP_ENFORCE(hipStreamSynchronize(getHipObjects().GetStream(gpu_id_)))`, with
`sync` the status the synchronization reports. -/
def HIPContext.FinishDeviceComputation (E : Env) (ctx : HIPContext) (sync : hipError_t)
    (w : World) : Except Error Unit × World :=
  let stream := GetStream E ctx.gpu_id_ w
  let w1 := w.log (Call.hipStreamSynchronize stream sync)
  (HIP_ENFORCE sync, w1)

/-- Method `HIPContext::hip_stream()`. -/
def HIPContext.hip_stream (E : Env) (ctx : HIPContext) (w : World) : hipStream_t :=
  GetStream E ctx.gpu_id_ w

/-- Static method `HIPContext::hip_stream(gpu_id, stream_id)`. -/
def HIPContext.hip_stream_of (E : Env) (gpu_id : DeviceIndex) (stream_id : StreamId)
    (w : World) : hipStream_t × World :=
  GetStreamById E gpu_id stream_id w

/-- Static method `HIPContext::IsStreamFree(option, stream_id)`, with
`device_id` the value of `option.device_id()` and `query` the status that
`hipStreamQuery` reports. -/
def HIPContext.IsStreamFree (E : Env) (device_id : DeviceIndex) (stream_id : StreamId)
    (query : hipError_t) (w : World) : Except Error Bool × World :=
  let r := HIPContext.hip_stream_of E device_id stream_id w
  let stream := r.1
  let status := query
  let w1 := r.2.log (Call.hipStreamQuery stream status)
  if status = .hipErrorNotReady then
    -- C10_HIP_CLEAR_ERROR();
    let w2 := w1.log Call.hipGetLastError
    (.ok (decide (status = .hipSuccess)), w2)
  else
    match C10_HIP_CHECK status with
    | .error e => (.error e, w1)
    | .ok _ => (.ok (decide (status = .hipSuccess)), w1)

/-- The block `if (!hiprand_generator_) { ... }` of `hiprand_generator()` after
its guard: create the generator, set its seed, check the pointer.  The context
is returned with the member `hiprand_generator_` as the block leaves it. -/
def hiprand_generator_init (ctx : HIPContext) (create : GeneratorResult)
    (setSeed : hiprandStatus_t) (w : World) : (Except Error Unit × HIPContext) × World :=
  -- HIPRAND_ENFORCE(hiprandCreateGenerator(&hiprand_generator_, HIPRAND_RNG_PSEUDO_DEFAULT));
  match create with
  | .failed code =>
    let w1 := w.log (Call.hiprandCreateGenerator (.other code) none)
    ((HIPRAND_ENFORCE (.other code), ctx), w1)
  | .created g =>
    let ctx1 := { ctx with hiprand_generator_ := some g }
    let w1 := w.log (Call.hiprandCreateGenerator .HIPRAND_STATUS_SUCCESS (some g))
    -- HIPRAND_ENFORCE(hiprandSetPseudoRandomGeneratorSeed(hiprand_generator_, random_seed_));
    let w2 := w1.log (Call.hiprandSetPseudoRandomGeneratorSeed g ctx.random_seed_ setSeed)
    match HIPRAND_ENFORCE setSeed with
    | .error e => ((.error e, ctx1), w2)
    | .ok _ =>
      -- TORCH_CHECK_NOTNULL(hiprand_generator_);
      ((TORCH_CHECK_NOTNULL ctx1.hiprand_generator_, ctx1), w2)

/-- Method `HIPContext::hiprand_generator()`.  `create`, `setSeed` and
`setStream` are what the three vendor calls answer, should they be made.  The
result is the generator returned (or the exception), the context after the
call, and the world after it. -/
def HIPContext.hiprand_generator (E : Env) (ctx : HIPContext) (create : GeneratorResult)
    (setSeed setStream : hiprandStatus_t) (w : World) :
    Except Error Nat × HIPContext × World :=
  -- if (!hiprand_generator_) { HIPGuard guard(gpu_id_); ... }
  let r : (Except Error Unit × HIPContext) × World :=
    match ctx.hiprand_generator_ with
    | none => withHIPGuard ctx.gpu_id_ (hiprand_generator_init ctx create setSeed) w
    | some _ => ((.ok (), ctx), w)
  match r.1.1 with
  | .error e => (.error e, r.1.2, r.2)
  | .ok _ =>
    match r.1.2.hiprand_generator_ with
    | none => (.error (.external "null generator"), r.1.2, r.2) -- not reached
    | some g =>
      -- HIPRAND_ENFORCE(hiprandSetStream(hiprand_generator_, hip_stream()));
      let w3 := r.2.log (Call.hiprandSetStream g (HIPContext.hip_stream E r.1.2 r.2) setStream)
      match HIPRAND_ENFORCE setStream with
      | .error e => (.error e, r.1.2, w3)
      | .ok _ => (.ok g, r.1.2, w3)

/-! ## Dispatch by dimension count -/

/-- Constant `kHIPTensorMaxDims`. -/
def kHIPTensorMaxDims : Int := 8

/-- Macro `DISPATCH_FUNCTION_BY_VALUE_WITH_TYPE_1(val, Func, T, ...)`.
`Func n` stands for the call `Func<T, n>(__VA_ARGS__)`, acting on a program
state of type `σ`. -/
def DISPATCH_FUNCTION_BY_VALUE_WITH_TYPE_1 {σ : Type} (val : Int)
    (Func : Nat → σ → Except Error Unit × σ) (s : σ) : Except Error Unit × σ :=
  match CAFFE_ENFORCE_LE val kHIPTensorMaxDims with
  | .error e => (.error e, s)
  | .ok _ =>
    if val = 1 then Func 1 s
    else if val = 2 then Func 2 s
    else if val = 3 then Func 3 s
    else if val = 4 then Func 4 s
    else if val = 5 then Func 5 s
    else if val = 6 then Func 6 s
    else if val = 7 then Func 7 s
    else if val = 8 then Func 8 s
    else (.ok (), s)

/-- Macro `DISPATCH_FUNCTION_BY_VALUE_WITH_TYPE_2(val, Func, T1, T2, ...)`.
`Func n` stands for the call `Func<T1, T2, n>(__VA_ARGS__)`. -/
def DISPATCH_FUNCTION_BY_VALUE_WITH_TYPE_2 {σ : Type} (val : Int)
    (Func : Nat → σ → Except Error Unit × σ) (s : σ) : Except Error Unit × σ :=
  match CAFFE_ENFORCE_LE val kHIPTensorMaxDims with
  | .error e => (.error e, s)
  | .ok _ =>
    if val = 1 then Func 1 s
    else if val = 2 then Func 2 s
    else if val = 3 then Func 3 s
    else if val = 4 then Func 4 s
    else if val = 5 then Func 5 s
    else if val = 6 then Func 6 s
    else if val = 7 then Func 7 s
    else if val = 8 then Func 8 s
    else (.ok (), s)

/-- Macro `DISPATCH_FUNCTION_BY_VALUE_WITH_TYPE_3(val, Func, T1, T2, T3, ...)`.
`Func n` stands for the call `Func<T1, T2, T3, n>(__VA_ARGS__)`. -/
def DISPATCH_FUNCTION_BY_VALUE_WITH_TYPE_3 {σ : Type} (val : Int)
    (Func : Nat → σ → Except Error Unit × σ) (s : σ) : Except Error Unit × σ :=
  match CAFFE_ENFORCE_LE val kHIPTensorMaxDims with
  | .error e => (.error e, s)
  | .ok _ =>
    if val = 1 then Func 1 s
    else if val = 2 then Func 2 s
    else if val = 3 then Func 3 s
    else if val = 4 then Func 4 s
    else if val = 5 then Func 5 s
    else if val = 6 then Func 6 s
    else if val = 7 then Func 7 s
    else if val = 8 then Func 8 s
    else (.ok (), s)

/-! ## Grid sizes -/

/-- The value an `int` (32 bit, two's complement) holds after an arithmetic
result `x` is stored in it. -/
def wrap_int32 (x : Int) : Int :=
  (x + 2 ^ 31) % 2 ^ 32 - 2 ^ 31

/-- Conversion of an `int` to `uint32_t`, the type of the members of `dim3`. -/
def to_uint32 (x : Int) : Nat :=
  (x % 2 ^ 32).toNat

/-- Constant `CAFFE_HIP_NUM_THREADS`. -/
def CAFFE_HIP_NUM_THREADS : Int := 128

/-- Constant `CAFFE_HIP_NUM_THREADS_2D_DIMX`. -/
def CAFFE_HIP_NUM_THREADS_2D_DIMX : Int := 16

/-- Constant `CAFFE_HIP_NUM_THREADS_2D_DIMY`. -/
def CAFFE_HIP_NUM_THREADS_2D_DIMY : Int := 16

/-- Constant `CAFFE_MAXIMUM_NUM_BLOCKS`. -/
def CAFFE_MAXIMUM_NUM_BLOCKS : Int := 4096

/-- Constant `CAFFE_MAXIMUM_NUM_BLOCKS_2D_DIMX`. -/
def CAFFE_MAXIMUM_NUM_BLOCKS_2D_DIMX : Int := 128

/-- Constant `CAFFE_MAXIMUM_NUM_BLOCKS_2D_DIMY`. -/
def CAFFE_MAXIMUM_NUM_BLOCKS_2D_DIMY : Int := 128

/-- Function `CAFFE_GET_BLOCKS(N)`:
`max(min((N + CAFFE_HIP_NUM_THREADS - 1) / CAFFE_HIP_NUM_THREADS, CAFFE_MAXIMUM_NUM_BLOCKS), 1)`
in `int` arithmetic; the division of C++ truncates towards zero. -/
def CAFFE_GET_BLOCKS (N : Int) : Int :=
  max
    (min
      (Int.tdiv (wrap_int32 (wrap_int32 (N + CAFFE_HIP_NUM_THREADS) - 1)) CAFFE_HIP_NUM_THREADS)
      CAFFE_MAXIMUM_NUM_BLOCKS)
    1

/-- Type `dim3` of the HIP runtime: three unsigned members, each 1 by default. -/
structure dim3 where
  x : Nat := 1
  y : Nat := 1
  z : Nat := 1
  deriving DecidableEq, Repr

/-- Function `CAFFE_GET_BLOCKS_2D(N, M)`; the second parameter has no name in
the source and is not used. -/
def CAFFE_GET_BLOCKS_2D (N : Int) (_M : Int) : dim3 :=
  let grid : dim3 := {}
  let grid := { grid with
    x := to_uint32 (max
      (min
        (Int.tdiv (wrap_int32 (wrap_int32 (N + CAFFE_HIP_NUM_THREADS_2D_DIMX) - 1))
          CAFFE_HIP_NUM_THREADS_2D_DIMX)
        CAFFE_MAXIMUM_NUM_BLOCKS_2D_DIMX)
      1) }
  let grid := { grid with
    y := to_uint32 (max
      (min
        (Int.tdiv (wrap_int32 (wrap_int32 (N + CAFFE_HIP_NUM_THREADS_2D_DIMY) - 1))
          CAFFE_HIP_NUM_THREADS_2D_DIMY)
        CAFFE_MAXIMUM_NUM_BLOCKS_2D_DIMY)
      1) }
  grid

/-! ## Sequences of registry operations -/

/-- One call on the thread-local registry, with what its vendor calls answer. -/
inductive Op
  | GetHIPStream (gpu : DeviceIndex) (stream_id : StreamId)
  | SetCurrentStreamId (gpu : DeviceIndex) (stream_id : StreamId)
  | GetHandle (hip_stream : HIPStream) (create : CreateResult)
      (setPointerMode setStream : hipblasStatus_t)
  | GetHandleOfDevice (gpu : DeviceIndex) (create : CreateResult)
      (setPointerMode setStream : hipblasStatus_t)

/-- The world after one registry call (its result is dropped). -/
def Op.apply (E : Env) : Op → World → World
  | .GetHIPStream gpu stream_id, w => (caffe2.GetHIPStream E gpu stream_id w).2
  | .SetCurrentStreamId gpu stream_id, w => caffe2.SetCurrentStreamId E gpu stream_id w
  | .GetHandle s c p t, w => (caffe2.GetHandle s c p t w).2
  | .GetHandleOfDevice gpu c p t, w => (caffe2.GetHandleOfDevice gpu c p t w).2

/-- The world after a sequence of registry calls, made in order. -/
def run (E : Env) : List Op → World → World
  | [], w => w
  | op :: ops, w => run E ops (op.apply E w)

/-- One call of `hiprand_generator()` on a context: the registry calls made on
the thread since the call before, and what the vendor calls of this call
answer. -/
structure GeneratorCall where
  before : List Op
  create : GeneratorResult
  setSeed : hiprandStatus_t
  setStream : hiprandStatus_t

/-- A sequence of `hiprand_generator()` calls on one context: the results of
the calls in order, the context after the last call and the world after it. -/
def hiprand_generator_calls (E : Env) :
    List GeneratorCall → HIPContext → World → List (Except Error Nat) × HIPContext × World
  | [], ctx, w => ([], ctx, w)
  | c :: cs, ctx, w =>
    let r := HIPContext.hiprand_generator E ctx c.create c.setSeed c.setStream (run E c.before w)
    let rs := hiprand_generator_calls E cs r.2.1 r.2.2
    (r.1 :: rs.1, rs.2.1, rs.2.2)

/-- Whether a call is a call into hipRAND. -/
def Call.isHiprand : Call → Bool
  | .hiprandCreateGenerator _ _ => true
  | .hiprandSetPseudoRandomGeneratorSeed _ _ _ => true
  | .hiprandSetStream _ _ _ => true
  | _ => false

/-- The hipRAND calls of a trace, in call order. -/
def hiprandCalls (tr : List Call) : List Call :=
  tr.filter Call.isHiprand

/-- The pools hold what the facility handed out: since the registry was made,
with `base d` requests counted for device `d` at that time, entry `i` of the
pool of `d` is the stream of request `base d + i`, and every request made
since went into the pool. -/
def PoolFromFacility (E : Env) (base : DeviceIndex → Nat) (w : World) : Prop :=
  ∀ d, w.acquired d = base d + (w.hip_streams_ d).length ∧
    ∀ i, i < (w.hip_streams_ d).length →
      (w.hip_streams_ d)[i]? = some (E.getStreamFromPool false d (base d + i))

/-- The handles passed to `hipblasDestroy` in a trace, in call order. -/
def destroyedHandles (tr : List Call) : List Nat :=
  tr.filterMap fun c =>
    match c with
    | .hipblasDestroy h _ => some h
    | _ => none

/-- The handles of the cache that are not null, in iteration order. -/
def cachedHandles (m : List (HIPStream × hipblasHandle_t)) : List Nat :=
  m.filterMap fun e => e.2

/-- Handle `h` has been set to host pointer mode and bound to stream `s`: the
trace holds a successful `hipblasSetPointerMode(h, HIPBLAS_POINTER_MODE_HOST)`
and a successful `hipblasSetStream(h, s)`. -/
def configuredAndBound (tr : List Call) (h : Nat) (s : HIPStream) : Prop :=
  Call.hipblasSetPointerMode h .HIPBLAS_POINTER_MODE_HOST .HIPBLAS_STATUS_SUCCESS ∈ tr ∧
    Call.hipblasSetStream h s .HIPBLAS_STATUS_SUCCESS ∈ tr

instance (tr : List Call) (h : Nat) (s : HIPStream) : Decidable (configuredAndBound tr h s) := by
  unfold configuredAndBound
  infer_instance

/-! ## Concrete data used to evaluate the definitions -/

/-- A stream facility with 32 streams per device, handed out round robin; the
raw stream is a number that encodes device and id. -/
def sampleEnv : Env where
  getStreamFromPool := fun _ gpu k => ⟨gpu, (k % 32 : Nat)⟩
  stream := fun s => s.device_index * 1000 + s.id.toNat + 1

/-- A world in which nothing has happened yet: empty registry, every current
stream the default stream of its device. -/
def sampleWorld : World where
  hip_streams_ := fun _ => []
  hipblas_handles_ := []
  current_stream := fun d => ⟨d, 0⟩
  acquired := fun _ => 0
  active_device := 0
  trace := []

/-- A `Func` that only notes the dimension it was instantiated with. -/
def noteDim (n : Nat) (s : List Nat) : Except Error Unit × List Nat :=
  (.ok (), s ++ [n])

/-- A registry that caches handle 3 and handle 4, and a null entry. -/
def twoHandleWorld : World :=
  { sampleWorld with
    hipblas_handles_ := [(⟨0, 1⟩, some 3), (⟨0, 5⟩, none), (⟨0, 2⟩, some 4)] }

/-- Three calls of `hiprand_generator()` whose vendor calls all succeed; the
current stream of device 0 is switched before the second call. -/
def sampleGeneratorCalls : List GeneratorCall :=
  [⟨[], .created 5, .HIPRAND_STATUS_SUCCESS, .HIPRAND_STATUS_SUCCESS⟩,
   ⟨[Op.SetCurrentStreamId 0 2], .created 6, .HIPRAND_STATUS_SUCCESS, .HIPRAND_STATUS_SUCCESS⟩,
   ⟨[], .created 7, .HIPRAND_STATUS_SUCCESS, .HIPRAND_STATUS_SUCCESS⟩]

/-- A context bound to device 0. -/
def sampleContext : HIPContext where
  gpu_id_ := 0
  random_seed_ := 1701
  hiprand_generator_ := none

/-! ## Lemmas on the handle map -/

theorem findHandle_subscript (s : HIPStream) (m : List (HIPStream × hipblasHandle_t)) :
    findHandle s (subscriptHandle s m) = some (handleAt s m) := by
  unfold subscriptHandle handleAt
  cases hf : findHandle s m with
  | some x => simp [hf]
  | none =>
    simp only
    induction m with
    | nil => simp [findHandle]
    | cons e rest ih =>
      simp only [findHandle] at hf
      by_cases he : e.1 = s
      · simp [he] at hf
      · simp only [he, if_false] at hf
        simp [findHandle, he, ih hf]

theorem subscriptHandle_of_find (s : HIPStream) (m : List (HIPStream × hipblasHandle_t))
    (x : hipblasHandle_t) (hf : findHandle s m = some x) : subscriptHandle s m = m := by
  simp [subscriptHandle, hf]

theorem handleAt_subscript (s : HIPStream) (m : List (HIPStream × hipblasHandle_t)) :
    handleAt s (subscriptHandle s m) = handleAt s m := by
  have h := findHandle_subscript s m
  simp [handleAt, h]

theorem findHandle_of_handleAt (s : HIPStream) (m : List (HIPStream × hipblasHandle_t))
    (h : Nat) (hh : handleAt s m = some h) : findHandle s m = some (some h) := by
  unfold handleAt at hh
  cases hf : findHandle s m with
  | none => simp [hf] at hh
  | some x => simp [hf] at hh; simp [hh]

theorem findHandle_assign (s : HIPStream) (h x : hipblasHandle_t)
    (m : List (HIPStream × hipblasHandle_t)) (hf : findHandle s m = some x) :
    findHandle s (assignHandle s h m) = some h := by
  induction m with
  | nil => simp [findHandle] at hf
  | cons e rest ih =>
    by_cases he : e.1 = s
    · simp [assignHandle, findHandle, he]
    · simp only [findHandle, he, if_false] at hf
      simp [assignHandle, findHandle, he, ih hf]

theorem handleAt_assign_subscript (s : HIPStream) (h : hipblasHandle_t)
    (m : List (HIPStream × hipblasHandle_t)) :
    handleAt s (assignHandle s h (subscriptHandle s m)) = h := by
  have h1 := findHandle_assign s h _ _ (findHandle_subscript s m)
  simp [handleAt, h1]

/-- On a hit the call returns the stored handle and changes nothing. -/
theorem GetHandle_hit (s : HIPStream) (c : CreateResult) (p t : hipblasStatus_t) (w : World)
    (h : Nat) (hh : handleAt s w.hipblas_handles_ = some h) :
    GetHandle s c p t w = (.ok (some h), w) := by
  have hf := findHandle_of_handleAt s _ h hh
  have hs := subscriptHandle_of_find s _ _ hf
  simp [GetHandle, withHIPGuard, GetHandle_body, hs, hh]

theorem GetHandle_pool_frame (s : HIPStream) (c : CreateResult) (p t : hipblasStatus_t)
    (w : World) :
    (GetHandle s c p t w).2.hip_streams_ = w.hip_streams_ ∧
    (GetHandle s c p t w).2.acquired = w.acquired ∧
    (GetHandle s c p t w).2.current_stream = w.current_stream := by
  simp only [GetHandle, withHIPGuard, GetHandle_body, World.log]
  repeat' split
  all_goals exact ⟨rfl, rfl, rfl⟩

/-! ## Lemmas on the stream pool -/

theorem emplace_back_stream_pool (E : Env) (gpu : DeviceIndex) (w : World) :
    (emplace_back_stream E gpu w).hip_streams_ gpu =
      w.hip_streams_ gpu ++ [E.getStreamFromPool false gpu (w.acquired gpu)] := by
  simp [emplace_back_stream, getStreamFromPool]

theorem emplace_back_stream_pool_other (E : Env) (gpu d : DeviceIndex) (w : World)
    (hd : d ≠ gpu) : (emplace_back_stream E gpu w).hip_streams_ d = w.hip_streams_ d := by
  simp [emplace_back_stream, getStreamFromPool, Function.update, hd]

theorem emplace_back_stream_acquired (E : Env) (gpu : DeviceIndex) (w : World) :
    (emplace_back_stream E gpu w).acquired = Function.update w.acquired gpu (w.acquired gpu + 1) := by
  simp [emplace_back_stream, getStreamFromPool]

theorem emplace_back_stream_frame (E : Env) (gpu : DeviceIndex) (w : World) :
    (emplace_back_stream E gpu w).hipblas_handles_ = w.hipblas_handles_ ∧
    (emplace_back_stream E gpu w).current_stream = w.current_stream ∧
    (emplace_back_stream E gpu w).active_device = w.active_device := by
  simp [emplace_back_stream, getStreamFromPool]

/-- The loop only appends to the pool of `gpu`. -/
theorem GetHIPStream_loop_grows (E : Env) (gpu : DeviceIndex) (target fuel : Nat) (w : World) :
    ∃ ext, (GetHIPStream_loop E gpu target fuel w).hip_streams_ gpu = w.hip_streams_ gpu ++ ext := by
  induction fuel generalizing w with
  | zero => exact ⟨[], by simp [GetHIPStream_loop]⟩
  | succ n ih =>
    unfold GetHIPStream_loop
    split
    · obtain ⟨ext, he⟩ := ih (emplace_back_stream E gpu w)
      refine ⟨[E.getStreamFromPool false gpu (w.acquired gpu)] ++ ext, ?_⟩
      rw [he, emplace_back_stream_pool, List.append_assoc]
    · exact ⟨[], by simp⟩

theorem GetHIPStream_loop_pool_other (E : Env) (gpu d : DeviceIndex) (target fuel : Nat)
    (w : World) (hd : d ≠ gpu) :
    (GetHIPStream_loop E gpu target fuel w).hip_streams_ d = w.hip_streams_ d := by
  induction fuel generalizing w with
  | zero => simp [GetHIPStream_loop]
  | succ n ih =>
    unfold GetHIPStream_loop
    split
    · rw [ih, emplace_back_stream_pool_other E gpu d w hd]
    · rfl

theorem GetHIPStream_loop_frame (E : Env) (gpu : DeviceIndex) (target fuel : Nat) (w : World) :
    (GetHIPStream_loop E gpu target fuel w).hipblas_handles_ = w.hipblas_handles_ ∧
    (GetHIPStream_loop E gpu target fuel w).current_stream = w.current_stream ∧
    (GetHIPStream_loop E gpu target fuel w).active_device = w.active_device := by
  induction fuel generalizing w with
  | zero => simp [GetHIPStream_loop]
  | succ n ih =>
    unfold GetHIPStream_loop
    split
    · have h1 := ih (emplace_back_stream E gpu w)
      have h2 := emplace_back_stream_frame E gpu w
      exact ⟨h1.1.trans h2.1, h1.2.1.trans h2.2.1, h1.2.2.trans h2.2.2⟩
    · simp

/-- The loop is left with its condition false: the bound on the number of
passes that `GetHIPStream` gives is enough. -/
theorem GetHIPStream_loop_exit (E : Env) (gpu : DeviceIndex) (target fuel : Nat) (w : World)
    (hfuel : target + 1 - (w.hip_streams_ gpu).length ≤ fuel) :
    target < ((GetHIPStream_loop E gpu target fuel w).hip_streams_ gpu).length := by
  induction fuel generalizing w with
  | zero =>
    simp only [GetHIPStream_loop]
    omega
  | succ n ih =>
    unfold GetHIPStream_loop
    split
    · apply ih
      rw [emplace_back_stream_pool]
      simp only [List.length_append, List.length_singleton]
      omega
    · omega

/-- After `GetHIPStream(gpu, stream_id)` the pool of `gpu` covers the index. -/
theorem GetHIPStream_covers (E : Env) (gpu : DeviceIndex) (stream_id : StreamId) (w : World) :
    size_t_cast stream_id < ((GetHIPStream E gpu stream_id w).2.hip_streams_ gpu).length := by
  simp only [GetHIPStream]
  exact GetHIPStream_loop_exit E gpu _ _ w (le_refl _)

/-- When the pool covers the index, `GetHIPStream` acquires nothing and returns
the entry at the index. -/
theorem GetHIPStream_populated (E : Env) (gpu : DeviceIndex) (stream_id : StreamId) (w : World)
    (h : size_t_cast stream_id < (w.hip_streams_ gpu).length) :
    GetHIPStream E gpu stream_id w =
      ((w.hip_streams_ gpu).getD (size_t_cast stream_id) ⟨gpu, 0⟩, w) := by
  have hz : size_t_cast stream_id + 1 - (w.hip_streams_ gpu).length = 0 := by omega
  simp [GetHIPStream, hz, GetHIPStream_loop]

/-- Every registry call only appends to the pools. -/
theorem Op_apply_grows (E : Env) (op : Op) (w : World) (d : DeviceIndex) :
    ∃ ext, (op.apply E w).hip_streams_ d = w.hip_streams_ d ++ ext := by
  have hget : ∀ gpu stream_id (w : World),
      ∃ ext, (GetHIPStream E gpu stream_id w).2.hip_streams_ d = w.hip_streams_ d ++ ext := by
    intro gpu stream_id w
    by_cases hd : d = gpu
    · subst hd
      exact GetHIPStream_loop_grows E d _ _ w
    · exact ⟨[], by simp [GetHIPStream, GetHIPStream_loop_pool_other E gpu d _ _ w hd]⟩
  have hhandle : ∀ s c p t (w : World),
      (GetHandle s c p t w).2.hip_streams_ = w.hip_streams_ := by
    intro s c p t w
    simp only [GetHandle, withHIPGuard, GetHandle_body, World.log]
    repeat' split
    all_goals rfl
  cases op with
  | GetHIPStream gpu stream_id => exact hget gpu stream_id w
  | SetCurrentStreamId gpu stream_id =>
    simp only [Op.apply, SetCurrentStreamId]
    split
    · exact hget gpu stream_id w
    · exact ⟨[], by simp⟩
  | GetHandle s c p t => exact ⟨[], by simp [Op.apply, hhandle]⟩
  | GetHandleOfDevice gpu c p t => exact ⟨[], by simp [Op.apply, GetHandleOfDevice, hhandle]⟩

/-- A sequence of registry calls only appends to the pools. -/
theorem run_grows (E : Env) (ops : List Op) (w : World) (d : DeviceIndex) :
    ∃ ext, (run E ops w).hip_streams_ d = w.hip_streams_ d ++ ext := by
  induction ops generalizing w with
  | nil => exact ⟨[], by simp [run]⟩
  | cons op ops ih =>
    obtain ⟨e1, h1⟩ := Op_apply_grows E op w d
    obtain ⟨e2, h2⟩ := ih (op.apply E w)
    exact ⟨e1 ++ e2, by simp only [run]; rw [h2, h1, List.append_assoc]⟩

theorem PoolFromFacility_new (E : Env) (w : World) :
    PoolFromFacility E w.acquired (ThreadLocalHIPObjects_new w) := by
  intro d
  simp [ThreadLocalHIPObjects_new]

theorem PoolFromFacility_emplace_back (E : Env) (base : DeviceIndex → Nat) (gpu : DeviceIndex)
    (w : World) (h : PoolFromFacility E base w) :
    PoolFromFacility E base (emplace_back_stream E gpu w) := by
  intro d
  by_cases hd : d = gpu
  · subst hd
    obtain ⟨hacq, hent⟩ := h d
    rw [emplace_back_stream_pool, emplace_back_stream_acquired]
    constructor
    · simp only [Function.update_same, List.length_append, List.length_singleton]
      omega
    · intro i hi
      simp only [List.length_append, List.length_singleton] at hi
      by_cases hlt : i < (w.hip_streams_ d).length
      · rw [List.getElem?_append_left hlt]
        exact hent i hlt
      · have hEq : i = (w.hip_streams_ d).length := by omega
        subst hEq
        rw [List.getElem?_append_right (le_refl _)]
        simp [hacq]
  · obtain ⟨hacq, hent⟩ := h d
    rw [emplace_back_stream_pool_other E gpu d w hd, emplace_back_stream_acquired]
    simp only [Function.update_noteq hd]
    exact ⟨hacq, hent⟩

theorem PoolFromFacility_loop (E : Env) (base : DeviceIndex → Nat) (gpu : DeviceIndex)
    (target fuel : Nat) (w : World) (h : PoolFromFacility E base w) :
    PoolFromFacility E base (GetHIPStream_loop E gpu target fuel w) := by
  induction fuel generalizing w with
  | zero => simpa [GetHIPStream_loop] using h
  | succ n ih =>
    unfold GetHIPStream_loop
    split
    · exact ih _ (PoolFromFacility_emplace_back E base gpu w h)
    · exact h

theorem PoolFromFacility_GetHIPStream (E : Env) (base : DeviceIndex → Nat) (gpu : DeviceIndex)
    (stream_id : StreamId) (w : World) (h : PoolFromFacility E base w) :
    PoolFromFacility E base (GetHIPStream E gpu stream_id w).2 :=
  PoolFromFacility_loop E base gpu _ _ w h

theorem PoolFromFacility_GetHandle (E : Env) (base : DeviceIndex → Nat) (s : HIPStream)
    (c : CreateResult) (p t : hipblasStatus_t) (w : World) (h : PoolFromFacility E base w) :
    PoolFromFacility E base (GetHandle s c p t w).2 := by
  obtain ⟨h1, h2, _⟩ := GetHandle_pool_frame s c p t w
  intro d
  rw [h1, h2]
  exact h d

theorem PoolFromFacility_apply (E : Env) (base : DeviceIndex → Nat) (op : Op) (w : World)
    (h : PoolFromFacility E base w) : PoolFromFacility E base (op.apply E w) := by
  cases op with
  | GetHIPStream gpu stream_id => exact PoolFromFacility_GetHIPStream E base gpu stream_id w h
  | SetCurrentStreamId gpu stream_id =>
    simp only [Op.apply, SetCurrentStreamId]
    split
    · exact PoolFromFacility_GetHIPStream E base gpu stream_id w h
    · exact h
  | GetHandle s c p t => exact PoolFromFacility_GetHandle E base s c p t w h
  | GetHandleOfDevice gpu c p t => exact PoolFromFacility_GetHandle E base _ c p t w h

theorem PoolFromFacility_run (E : Env) (base : DeviceIndex → Nat) (ops : List Op) (w : World)
    (h : PoolFromFacility E base w) : PoolFromFacility E base (run E ops w) := by
  induction ops generalizing w with
  | nil => exact h
  | cons op ops ih => exact ih _ (PoolFromFacility_apply E base op w h)

/-- In a registry filled from the facility, `GetHIPStream(gpu, stream_id)`
returns the stream of the request with the number of the index. -/
theorem GetHIPStream_from_facility (E : Env) (base : DeviceIndex → Nat) (gpu : DeviceIndex)
    (stream_id : StreamId) (w : World) (h : PoolFromFacility E base w) :
    (GetHIPStream E gpu stream_id w).1 =
      E.getStreamFromPool false gpu (base gpu + size_t_cast stream_id) := by
  have hinv := PoolFromFacility_GetHIPStream E base gpu stream_id w h
  have hcov := GetHIPStream_covers E gpu stream_id w
  have hent := (hinv gpu).2 _ hcov
  simp only [GetHIPStream] at hent hcov ⊢
  rw [List.getD_eq_getElem?_getD, hent]
  rfl

theorem size_t_cast_of_nonneg (l : Int) (h0 : 0 ≤ l) (h1 : l < 2 ^ 63) :
    size_t_cast l = l.toNat := by
  unfold size_t_cast
  congr 1
  exact Int.emod_eq_of_lt h0 (by omega)

/-! ## Lemmas on the destructor -/

theorem destroyedHandles_append (a b : List Call) :
    destroyedHandles (a ++ b) = destroyedHandles a ++ destroyedHandles b := by
  simp [destroyedHandles, List.filterMap_append]

/-- When every destroy call reports success, or a failed check only logs, the
loop destroys every cached handle and runs to its end. -/
theorem destroy_handles_all (sem : CheckFailure) (outcome : Nat → hipblasStatus_t) (k : Nat)
    (m : List (HIPStream × hipblasHandle_t)) (w : World)
    (hok : sem = .logOnly ∨
      ∀ i, i < (cachedHandles m).length → outcome (k + i) = .HIPBLAS_STATUS_SUCCESS) :
    (destroy_handles sem outcome k m w).1 = true ∧
    destroyedHandles (destroy_handles sem outcome k m w).2.trace =
      destroyedHandles w.trace ++ cachedHandles m := by
  induction m generalizing k w with
  | nil => simp [destroy_handles, cachedHandles]
  | cons e rest ih =>
    obtain ⟨s, r⟩ := e
    cases r with
    | none =>
      have hc : cachedHandles ((s, none) :: rest) = cachedHandles rest := by
        simp [cachedHandles]
      rw [hc] at hok ⊢
      simpa [destroy_handles] using ih k w hok
    | some h =>
      have hc : cachedHandles ((s, some h) :: rest) = h :: cachedHandles rest := by
        simp [cachedHandles]
      rw [hc] at hok ⊢
      have hrest : sem = .logOnly ∨ ∀ i, i < (cachedHandles rest).length →
          outcome (k + 1 + i) = .HIPBLAS_STATUS_SUCCESS := by
        rcases hok with hl | hall
        · exact Or.inl hl
        · refine Or.inr (fun i hi => ?_)
          have := hall (i + 1) (by simp only [List.length_cons]; omega)
          rw [← this]; congr 1; omega
      by_cases hs : outcome k = .HIPBLAS_STATUS_SUCCESS
      · have := ih (k + 1) (w.log (Call.hipblasDestroy h (outcome k))) hrest
        simp only [destroy_handles, HIPBLAS_CHECK, CHECK, hs, decide_True, if_true]
        rw [hs] at this
        refine ⟨this.1, ?_⟩
        rw [this.2]
        simp [World.log, destroyedHandles_append, destroyedHandles]
      · have hl : sem = .logOnly := by
          rcases hok with hl | hall
          · exact hl
          · exact absurd (hall 0 (by simp)) (by simpa using hs)
        have := ih (k + 1)
          ((w.log (Call.hipblasDestroy h (outcome k))).log (Call.checkFailed "hipblas error"))
          hrest
        simp only [destroy_handles, HIPBLAS_CHECK, CHECK, hs, decide_False, hl, decide_True,
          if_true, Bool.false_eq_true, if_false]
        rw [hl] at this
        refine ⟨this.1, ?_⟩
        rw [this.2]
        simp [World.log, destroyedHandles_append, destroyedHandles]

/-- With the fatal check the loop ends at the first destroy call that reports
failure: the handles up to and with that one are destroyed, the later ones are
not. -/
theorem destroy_handles_fatal (outcome : Nat → hipblasStatus_t) (k : Nat)
    (m : List (HIPStream × hipblasHandle_t)) (w : World) (j : Nat)
    (hj : j < (cachedHandles m).length)
    (hbefore : ∀ i, i < j → outcome (k + i) = .HIPBLAS_STATUS_SUCCESS)
    (hfail : outcome (k + j) ≠ .HIPBLAS_STATUS_SUCCESS) :
    (destroy_handles .fatal outcome k m w).1 = false ∧
    destroyedHandles (destroy_handles .fatal outcome k m w).2.trace =
      destroyedHandles w.trace ++ (cachedHandles m).take (j + 1) := by
  induction m generalizing k w j with
  | nil => simp [cachedHandles] at hj
  | cons e rest ih =>
    obtain ⟨s, r⟩ := e
    cases r with
    | none =>
      have hc : cachedHandles ((s, none) :: rest) = cachedHandles rest := by
        simp [cachedHandles]
      rw [hc] at hj ⊢
      simpa [destroy_handles] using ih k w j hj hbefore hfail
    | some h =>
      have hc : cachedHandles ((s, some h) :: rest) = h :: cachedHandles rest := by
        simp [cachedHandles]
      rw [hc] at hj ⊢
      cases j with
      | zero =>
        have hs : ¬ outcome k = .HIPBLAS_STATUS_SUCCESS := by simpa using hfail
        simp [destroy_handles, HIPBLAS_CHECK, CHECK, hs, World.log, destroyedHandles_append,
          destroyedHandles]
      | succ j =>
        have hs : outcome k = .HIPBLAS_STATUS_SUCCESS := by simpa using hbefore 0 (by omega)
        have := ih (k + 1) (w.log (Call.hipblasDestroy h (outcome k))) j
          (by simp only [List.length_cons] at hj; omega)
          (fun i hi => by
            have := hbefore (i + 1) (by omega)
            rw [← this]; congr 1; omega)
          (by
            intro hcontra
            apply hfail
            rw [← hcontra]; congr 1; omega)
        simp only [destroy_handles, HIPBLAS_CHECK, CHECK, hs, decide_True, if_true]
        rw [hs] at this
        refine ⟨this.1, ?_⟩
        rw [this.2]
        simp [World.log, destroyedHandles_append, destroyedHandles]

/-! ## Lemmas on the dispatch macros -/

theorem dispatch_1_eq {σ : Type} (val : Int) (Func : Nat → σ → Except Error Unit × σ) (s : σ) :
    DISPATCH_FUNCTION_BY_VALUE_WITH_TYPE_1 val Func s =
      (if 8 < val then (.error (.EnforceNotMet ""), s)
       else if 1 ≤ val then Func val.toNat s
       else (.ok (), s)) := by
  unfold DISPATCH_FUNCTION_BY_VALUE_WITH_TYPE_1 CAFFE_ENFORCE_LE kHIPTensorMaxDims
  by_cases h8 : val ≤ 8
  · have h8n : ¬ (8 < val) := by omega
    simp only [h8, if_true, h8n, if_false]
    by_cases h1 : 1 ≤ val
    · have : val = 1 ∨ val = 2 ∨ val = 3 ∨ val = 4 ∨ val = 5 ∨ val = 6 ∨ val = 7 ∨ val = 8 := by
        omega
      rcases this with h | h | h | h | h | h | h | h <;> subst h <;> simp
    · have e1 : ¬ val = 1 := by omega
      have e2 : ¬ val = 2 := by omega
      have e3 : ¬ val = 3 := by omega
      have e4 : ¬ val = 4 := by omega
      have e5 : ¬ val = 5 := by omega
      have e6 : ¬ val = 6 := by omega
      have e7 : ¬ val = 7 := by omega
      have e8 : ¬ val = 8 := by omega
      simp [h1, e1, e2, e3, e4, e5, e6, e7, e8]
  · have h8n : 8 < val := by omega
    simp [h8, h8n]

theorem dispatch_2_eq {σ : Type} (val : Int) (Func : Nat → σ → Except Error Unit × σ) (s : σ) :
    DISPATCH_FUNCTION_BY_VALUE_WITH_TYPE_2 val Func s =
      DISPATCH_FUNCTION_BY_VALUE_WITH_TYPE_1 val Func s := rfl

theorem dispatch_3_eq {σ : Type} (val : Int) (Func : Nat → σ → Except Error Unit × σ) (s : σ) :
    DISPATCH_FUNCTION_BY_VALUE_WITH_TYPE_3 val Func s =
      DISPATCH_FUNCTION_BY_VALUE_WITH_TYPE_1 val Func s := rfl

/-! ## The handle cache: C1 -/

/-- C1: when `GetHandle(s)` has returned a handle, a second `GetHandle(s)`
returns that same handle and leaves the world as it is: no vendor call is made
(the trace is unchanged, so there is no `hipblasCreate`), whatever the vendor
calls would have answered. -/
theorem GetHandle_twice_same_handle (s : HIPStream) (c1 c2 : CreateResult)
    (p1 t1 p2 t2 : hipblasStatus_t) (w : World) (h : hipblasHandle_t)
    (hfirst : (GetHandle s c1 p1 t1 w).1 = .ok h) :
    GetHandle s c2 p2 t2 (GetHandle s c1 p1 t1 w).2 = (.ok h, (GetHandle s c1 p1 t1 w).2) := by
  cases hm : handleAt s w.hipblas_handles_ with
  | some h0 =>
    have e1 : GetHandle s c1 p1 t1 w = (.ok (some h0), w) := GetHandle_hit s c1 p1 t1 w h0 hm
    rw [e1] at hfirst ⊢
    simp only [Except.ok.injEq] at hfirst
    subst hfirst
    exact GetHandle_hit s c2 p2 t2 w h0 hm
  | none =>
    cases c1 with
    | failed code =>
      simp [GetHandle, withHIPGuard, GetHandle_body, handleAt_subscript, hm, HIPBLAS_ENFORCE,
        CAFFE_ENFORCE_EQ] at hfirst
    | created h1 =>
      by_cases hp : p1 = .HIPBLAS_STATUS_SUCCESS
      · by_cases ht : t1 = .HIPBLAS_STATUS_SUCCESS
        · subst hp ht
          have e1 : (GetHandle s (.created h1) .HIPBLAS_STATUS_SUCCESS
              .HIPBLAS_STATUS_SUCCESS w).1 = .ok (some h1) := by
            simp [GetHandle, withHIPGuard, GetHandle_body, handleAt_subscript, hm,
              HIPBLAS_ENFORCE, CAFFE_ENFORCE_EQ]
          have e2 : handleAt s (GetHandle s (.created h1) .HIPBLAS_STATUS_SUCCESS
              .HIPBLAS_STATUS_SUCCESS w).2.hipblas_handles_ = some h1 := by
            simp [GetHandle, withHIPGuard, GetHandle_body, handleAt_subscript, hm,
              HIPBLAS_ENFORCE, CAFFE_ENFORCE_EQ, World.log, handleAt_assign_subscript]
          rw [e1] at hfirst
          simp only [Except.ok.injEq] at hfirst
          subst hfirst
          exact GetHandle_hit s c2 p2 t2 _ h1 e2
        · simp [GetHandle, withHIPGuard, GetHandle_body, handleAt_subscript, hm, HIPBLAS_ENFORCE,
            CAFFE_ENFORCE_EQ, hp, ht] at hfirst
      · simp [GetHandle, withHIPGuard, GetHandle_body, handleAt_subscript, hm, HIPBLAS_ENFORCE,
          CAFFE_ENFORCE_EQ, hp] at hfirst

/-- Witness for C1: a first call on a fresh registry creates handle 7 for the
stream; a second call, whose vendor calls would all fail, returns handle 7. -/
theorem GetHandle_twice_same_handle_witness :
    (GetHandle ⟨0, 1⟩ (.created 7) .HIPBLAS_STATUS_SUCCESS .HIPBLAS_STATUS_SUCCESS
        sampleWorld).1 = .ok (some 7) ∧
    GetHandle ⟨0, 1⟩ (.failed 3) (.other 1) (.other 1)
        (GetHandle ⟨0, 1⟩ (.created 7) .HIPBLAS_STATUS_SUCCESS .HIPBLAS_STATUS_SUCCESS
          sampleWorld).2 =
      (.ok (some 7), (GetHandle ⟨0, 1⟩ (.created 7) .HIPBLAS_STATUS_SUCCESS
          .HIPBLAS_STATUS_SUCCESS sampleWorld).2) :=
  ⟨by decide, GetHandle_twice_same_handle ⟨0, 1⟩ (.created 7) (.failed 3) _ _ _ _
    sampleWorld (some 7) (by decide)⟩

/-! ## The stream pool: C2, C3 -/

/-- C2: two calls `GetHIPStream(d, l)` return the same stream, whatever
registry calls (`GetHIPStream`, `SetCurrentStreamId`, `GetHandle`, with any
arguments and any vendor answers) are made in between; and a sequence of
registry calls leaves every entry a pool already has as it is. -/
theorem GetHIPStream_same_stream_again (E : Env) (d : DeviceIndex) (l : StreamId)
    (ops : List Op) (w : World) :
    (GetHIPStream E d l (run E ops (GetHIPStream E d l w).2)).1 = (GetHIPStream E d l w).1 ∧
    ((run E ops w).hip_streams_ d).take (w.hip_streams_ d).length = w.hip_streams_ d := by
  constructor
  · have hcov := GetHIPStream_covers E d l w
    obtain ⟨ext, hext⟩ := run_grows E ops (GetHIPStream E d l w).2 d
    have hcov2 : size_t_cast l <
        ((run E ops (GetHIPStream E d l w).2).hip_streams_ d).length := by
      rw [hext, List.length_append]; omega
    rw [GetHIPStream_populated E d l _ hcov2]
    simp only [hext]
    rw [List.getD_append _ _ _ _ hcov]
    rfl
  · obtain ⟨ext, hext⟩ := run_grows E ops w d
    rw [hext]
    simp

/-- C3: in a registry that was made empty and then used by any sequence of
registry calls, entry `i` of the pool of a device is the stream of the `i`-th
request this registry made for that device (one request per index, no request
used twice); so `GetStream(d, l1)` and `GetStream(d, l2)` differ for all
logical ids `0 <= l1 != l2 < capacity`, when the first `capacity` streams that
the facility hands to this registry for `d` are pairwise distinct raw
streams. -/
theorem GetStream_distinct_below_capacity (E : Env) (w0 : World) (ops : List Op)
    (d : DeviceIndex) (capacity : Nat) (l1 l2 : StreamId)
    (hcap : ∀ i j, i < capacity → j < capacity → i ≠ j →
      E.stream (E.getStreamFromPool false d (w0.acquired d + i)) ≠
        E.stream (E.getStreamFromPool false d (w0.acquired d + j)))
    (h1 : 0 ≤ l1) (h1c : l1 < capacity) (h2 : 0 ≤ l2) (h2c : l2 < capacity)
    (hne : l1 ≠ l2) (hr1 : l1 < 2 ^ 63) (hr2 : l2 < 2 ^ 63) :
    (GetStreamById E d l1 (run E ops (ThreadLocalHIPObjects_new w0))).1 ≠
      (GetStreamById E d l2
        (GetStreamById E d l1 (run E ops (ThreadLocalHIPObjects_new w0))).2).1 ∧
    PoolFromFacility E w0.acquired
      (GetStreamById E d l2
        (GetStreamById E d l1 (run E ops (ThreadLocalHIPObjects_new w0))).2).2 := by
  have hinv := PoolFromFacility_run E w0.acquired ops _ (PoolFromFacility_new E w0)
  have hinv1 := PoolFromFacility_GetHIPStream E w0.acquired d l1 _ hinv
  have hinv2 := PoolFromFacility_GetHIPStream E w0.acquired d l2 _ hinv1
  refine ⟨?_, hinv2⟩
  simp only [GetStreamById]
  rw [GetHIPStream_from_facility E w0.acquired d l1 _ hinv,
    GetHIPStream_from_facility E w0.acquired d l2 _ hinv1,
    size_t_cast_of_nonneg l1 h1 hr1, size_t_cast_of_nonneg l2 h2 hr2]
  apply hcap
  · exact (Int.toNat_lt h1).2 h1c
  · exact (Int.toNat_lt h2).2 h2c
  · intro heq
    apply hne
    rw [← Int.toNat_of_nonneg h1, ← Int.toNat_of_nonneg h2, heq]

/-- Witness for C3: the round robin facility with 32 streams per device has
capacity 32; logical ids 0 and 31 of device 0 get different streams. -/
theorem GetStream_distinct_below_capacity_witness :
    (GetStreamById sampleEnv 0 0
      (run sampleEnv [Op.SetCurrentStreamId 0 2, Op.GetHIPStream 1 5]
        (ThreadLocalHIPObjects_new sampleWorld))).1 ≠
    (GetStreamById sampleEnv 0 31
      (GetStreamById sampleEnv 0 0
        (run sampleEnv [Op.SetCurrentStreamId 0 2, Op.GetHIPStream 1 5]
          (ThreadLocalHIPObjects_new sampleWorld))).2).1 :=
  (GetStream_distinct_below_capacity sampleEnv sampleWorld
    [Op.SetCurrentStreamId 0 2, Op.GetHIPStream 1 5] 0 32 0 31
    (by
      intro i j hi hj hij
      simp only [sampleEnv, sampleWorld, Nat.zero_add, Nat.zero_mul, Int.toNat_ofNat]
      intro h
      have h2 : i % 32 + 1 = j % 32 + 1 := h
      omega)
    (by decide) (by decide) (by decide) (by decide) (by decide) (by decide) (by decide)).1

/-! ## Current stream and stream query: C4, C5 -/

/-- C4: `SwitchToDevice(-1)` leaves the current stream of every device as it
was, so `GetStream(d)` answers the same before and after, and it adds no stream
to the pool of any device. -/
theorem SwitchToDevice_minus_one_keeps_current (E : Env) (ctx : HIPContext) (w : World) :
    (∀ d, GetStream E d (HIPContext.SwitchToDevice E ctx (-1) w) = GetStream E d w) ∧
    (HIPContext.SwitchToDevice E ctx (-1) w).current_stream = w.current_stream ∧
    (HIPContext.SwitchToDevice E ctx (-1) w).hip_streams_ = w.hip_streams_ ∧
    (HIPContext.SwitchToDevice E ctx (-1) w).trace = w.trace ++ [Call.CaffeHipSetDevice ctx.gpu_id_] := by
  simp [HIPContext.SwitchToDevice, SetCurrentStreamId, CaffeHipSetDevice, GetStream,
    getCurrentHIPStream]

/-- C5: `IsStreamFree` returns `true` when the query reports success, returns
`false` without raising when it reports "not ready", and raises for every other
status; so it returns `true` exactly for success. -/
theorem IsStreamFree_by_status (E : Env) (device_id : DeviceIndex) (stream_id : StreamId)
    (query : hipError_t) (w : World) :
    (HIPContext.IsStreamFree E device_id stream_id query w).1 =
      (match query with
       | .hipSuccess => .ok true
       | .hipErrorNotReady => .ok false
       | .other code => .error (.c10Error (.other code))) ∧
    ((HIPContext.IsStreamFree E device_id stream_id query w).1 = .ok true ↔
      query = .hipSuccess) := by
  cases query <;> simp [HIPContext.IsStreamFree, C10_HIP_CHECK]

/-! ## Teardown: C6 -/

/-- C6, counterexample: the cache holds the two handles 3 and 4.  The destroy
call for handle 3 reports failure (every later call would succeed).  With the
fatal `CHECK` the teardown makes that one destroy call, logs the failed check
and ends there: handle 4 is never passed to `hipblasDestroy`, so there is one
destroy call and not two. -/
theorem destructor_stops_at_failed_destroy :
    cachedHandles twoHandleWorld.hipblas_handles_ = [3, 4] ∧
    (ThreadLocalHIPObjects_destructor .fatal
      (fun k => if k = 0 then .other 1 else .HIPBLAS_STATUS_SUCCESS) twoHandleWorld).1 = false ∧
    (ThreadLocalHIPObjects_destructor .fatal
      (fun k => if k = 0 then .other 1 else .HIPBLAS_STATUS_SUCCESS) twoHandleWorld).2.trace =
      [Call.hipblasDestroy 3 (.other 1), Call.checkFailed "hipblas error"] ∧
    destroyedHandles (ThreadLocalHIPObjects_destructor .fatal
      (fun k => if k = 0 then .other 1 else .HIPBLAS_STATUS_SUCCESS) twoHandleWorld).2.trace =
      [3] := by
  decide

/-- C6, amended: the destructor passes the cached handles that are not null to
`hipblasDestroy` one by one, in iteration order.  When every destroy call
reports success (or a failed `CHECK` only logs) each cached handle is destroyed
exactly once: N calls for N handles, and the destructor runs to its end.  With
the fatal `CHECK`, the first destroy call that reports failure is the last call
made: the handles before it and that one have been passed to `hipblasDestroy`,
the remaining ones are not, and the destructor does not run to its end. -/
theorem destructor_destroys_until_failed_check (sem : CheckFailure)
    (outcome : Nat → hipblasStatus_t) (w : World) :
    ((sem = .logOnly ∨ ∀ i, i < (cachedHandles w.hipblas_handles_).length →
        outcome i = .HIPBLAS_STATUS_SUCCESS) →
      (ThreadLocalHIPObjects_destructor sem outcome w).1 = true ∧
      destroyedHandles (ThreadLocalHIPObjects_destructor sem outcome w).2.trace =
        destroyedHandles w.trace ++ cachedHandles w.hipblas_handles_) ∧
    (∀ j, sem = .fatal → j < (cachedHandles w.hipblas_handles_).length →
      (∀ i, i < j → outcome i = .HIPBLAS_STATUS_SUCCESS) →
      outcome j ≠ .HIPBLAS_STATUS_SUCCESS →
      (ThreadLocalHIPObjects_destructor sem outcome w).1 = false ∧
      destroyedHandles (ThreadLocalHIPObjects_destructor sem outcome w).2.trace =
        destroyedHandles w.trace ++ (cachedHandles w.hipblas_handles_).take (j + 1)) := by
  constructor
  · intro hok
    apply destroy_handles_all sem outcome 0 w.hipblas_handles_ w
    simpa using hok
  · intro j hsem hj hbefore hfail
    subst hsem
    apply destroy_handles_fatal outcome 0 w.hipblas_handles_ w j hj
    · simpa using hbefore
    · simpa using hfail

/-- Witness for C6 (amended): with two cached handles and destroy calls that
succeed, both handles are destroyed; when the second destroy call fails under
the fatal check, both calls have been made and the destructor does not run to
its end. -/
theorem destructor_destroys_until_failed_check_witness :
    ((ThreadLocalHIPObjects_destructor .fatal (fun _ => .HIPBLAS_STATUS_SUCCESS)
        twoHandleWorld).1 = true ∧
      destroyedHandles (ThreadLocalHIPObjects_destructor .fatal
        (fun _ => .HIPBLAS_STATUS_SUCCESS) twoHandleWorld).2.trace =
        destroyedHandles twoHandleWorld.trace ++ cachedHandles twoHandleWorld.hipblas_handles_) ∧
    ((ThreadLocalHIPObjects_destructor .fatal
        (fun k => if k = 0 then .HIPBLAS_STATUS_SUCCESS else .other 2) twoHandleWorld).1 = false ∧
      destroyedHandles (ThreadLocalHIPObjects_destructor .fatal
        (fun k => if k = 0 then .HIPBLAS_STATUS_SUCCESS else .other 2) twoHandleWorld).2.trace =
        destroyedHandles twoHandleWorld.trace ++
          (cachedHandles twoHandleWorld.hipblas_handles_).take (1 + 1)) :=
  ⟨(destructor_destroys_until_failed_check .fatal (fun _ => .HIPBLAS_STATUS_SUCCESS)
      twoHandleWorld).1 (Or.inr (fun _ _ => rfl)),
   (destructor_destroys_until_failed_check .fatal
      (fun k => if k = 0 then .HIPBLAS_STATUS_SUCCESS else .other 2) twoHandleWorld).2 1 rfl
      (by decide) (by intro i hi; have : i = 0 := by omega
                      subst this; rfl) (by decide)⟩

/-! ## Dispatch by dimension count: C7 -/

/-- C7, counterexample: for `val = 0` (and for `val = -3`) each of the three
macros returns normally and has not called `Func`: the value is out of the
range 1..8 and is silently ignored, no error is raised. -/
theorem dispatch_zero_silently_ignored :
    DISPATCH_FUNCTION_BY_VALUE_WITH_TYPE_1 0 noteDim [] = (.ok (), []) ∧
    DISPATCH_FUNCTION_BY_VALUE_WITH_TYPE_2 0 noteDim [] = (.ok (), []) ∧
    DISPATCH_FUNCTION_BY_VALUE_WITH_TYPE_3 0 noteDim [] = (.ok (), []) ∧
    DISPATCH_FUNCTION_BY_VALUE_WITH_TYPE_1 (-3) noteDim [] = (.ok (), []) := by
  decide

/-- C7, amended: each of the three macros makes exactly one call of `Func`
instantiated with `val` when `1 <= val <= 8` (its effect and outcome are those
of that one call), raises `EnforceNotMet` without calling `Func` when
`val > 8`, and returns normally without calling `Func` when `val <= 0`. -/
theorem dispatch_by_value (σ : Type) (val : Int) (Func : Nat → σ → Except Error Unit × σ)
    (s : σ) :
    DISPATCH_FUNCTION_BY_VALUE_WITH_TYPE_1 val Func s =
      (if 8 < val then (.error (.EnforceNotMet ""), s)
       else if 1 ≤ val then Func val.toNat s
       else (.ok (), s)) ∧
    DISPATCH_FUNCTION_BY_VALUE_WITH_TYPE_2 val Func s =
      (if 8 < val then (.error (.EnforceNotMet ""), s)
       else if 1 ≤ val then Func val.toNat s
       else (.ok (), s)) ∧
    DISPATCH_FUNCTION_BY_VALUE_WITH_TYPE_3 val Func s =
      (if 8 < val then (.error (.EnforceNotMet ""), s)
       else if 1 ≤ val then Func val.toNat s
       else (.ok (), s)) := by
  refine ⟨?_, ?_, ?_⟩
  · exact dispatch_1_eq val Func s
  · rw [dispatch_2_eq]; exact dispatch_1_eq val Func s
  · rw [dispatch_3_eq]; exact dispatch_1_eq val Func s

/-! ## Hit path of the handle cache: C8 -/

/-- C8, counterexample: handle 7 is stored for the stream by a first call.  A
second call for the same stream is a hit: it returns handle 7 and the trace
after it is the trace before it, so no set-stream call was issued.  The same
holds when the set-stream call of the first call had failed: the hit returns
the handle and the only set-stream call in the whole trace is the failed one. -/
theorem GetHandle_hit_issues_no_set_stream :
    handleAt ⟨0, 1⟩ (GetHandle ⟨0, 1⟩ (.created 7) .HIPBLAS_STATUS_SUCCESS
      .HIPBLAS_STATUS_SUCCESS sampleWorld).2.hipblas_handles_ = some 7 ∧
    (GetHandle ⟨0, 1⟩ (.created 8) .HIPBLAS_STATUS_SUCCESS .HIPBLAS_STATUS_SUCCESS
      (GetHandle ⟨0, 1⟩ (.created 7) .HIPBLAS_STATUS_SUCCESS .HIPBLAS_STATUS_SUCCESS
        sampleWorld).2).1 = .ok (some 7) ∧
    (GetHandle ⟨0, 1⟩ (.created 8) .HIPBLAS_STATUS_SUCCESS .HIPBLAS_STATUS_SUCCESS
      (GetHandle ⟨0, 1⟩ (.created 7) .HIPBLAS_STATUS_SUCCESS .HIPBLAS_STATUS_SUCCESS
        sampleWorld).2).2.trace =
      (GetHandle ⟨0, 1⟩ (.created 7) .HIPBLAS_STATUS_SUCCESS .HIPBLAS_STATUS_SUCCESS
        sampleWorld).2.trace ∧
    (GetHandle ⟨0, 1⟩ (.created 8) .HIPBLAS_STATUS_SUCCESS .HIPBLAS_STATUS_SUCCESS
      (GetHandle ⟨0, 1⟩ (.created 7) .HIPBLAS_STATUS_SUCCESS (.other 1)
        sampleWorld).2).1 = .ok (some 7) ∧
    (GetHandle ⟨0, 1⟩ (.created 8) .HIPBLAS_STATUS_SUCCESS .HIPBLAS_STATUS_SUCCESS
      (GetHandle ⟨0, 1⟩ (.created 7) .HIPBLAS_STATUS_SUCCESS (.other 1)
        sampleWorld).2).2.trace =
      [Call.hipblasCreate .HIPBLAS_STATUS_SUCCESS (some 7),
       Call.hipblasSetPointerMode 7 .HIPBLAS_POINTER_MODE_HOST .HIPBLAS_STATUS_SUCCESS,
       Call.hipblasSetStream 7 ⟨0, 1⟩ (.other 1)] := by
  decide

/-- C8, amended: on a hit `GetHandle(s)` returns the stored handle as it is,
makes no vendor call (no set-stream call) and changes nothing.  On a miss the
calls made are pinned for every answer of the vendor: a failed create is the
only call and the call raises; after a successful create, a failed
set-pointer-mode is the last call and the call raises; only after a successful
create and a successful set-pointer-mode the set-stream call of the new handle
to `s` is issued, as the third and last call.  So every set-stream call in the
trace after `GetHandle(s)` was either there before, or is the one of a miss
whose create and set-pointer-mode have succeeded. -/
theorem GetHandle_set_stream_on_miss_only (s : HIPStream) (c : CreateResult)
    (p t : hipblasStatus_t) (w : World) :
    (∀ h : Nat, handleAt s w.hipblas_handles_ = some h →
      GetHandle s c p t w = (.ok (some h), w)) ∧
    (handleAt s w.hipblas_handles_ = none →
      (GetHandle s c p t w).2.trace = w.trace ++
        (match c with
         | .failed code => [Call.hipblasCreate (.other code) none]
         | .created h =>
           if p = .HIPBLAS_STATUS_SUCCESS then
             [Call.hipblasCreate .HIPBLAS_STATUS_SUCCESS (some h),
              Call.hipblasSetPointerMode h .HIPBLAS_POINTER_MODE_HOST p,
              Call.hipblasSetStream h s t]
           else
             [Call.hipblasCreate .HIPBLAS_STATUS_SUCCESS (some h),
              Call.hipblasSetPointerMode h .HIPBLAS_POINTER_MODE_HOST p]) ∧
      (GetHandle s c p t w).1 =
        (match c with
         | .failed _ => .error (.EnforceNotMet "Error at: ")
         | .created h =>
           if p = .HIPBLAS_STATUS_SUCCESS ∧ t = .HIPBLAS_STATUS_SUCCESS then .ok (some h)
           else .error (.EnforceNotMet "Error at: "))) ∧
    (∀ (h2 : Nat) (s2 : HIPStream) (st : hipblasStatus_t),
      Call.hipblasSetStream h2 s2 st ∈ (GetHandle s c p t w).2.trace →
      Call.hipblasSetStream h2 s2 st ∈ w.trace ∨
        (handleAt s w.hipblas_handles_ = none ∧ c = .created h2 ∧
          p = .HIPBLAS_STATUS_SUCCESS ∧ s2 = s ∧ st = t)) := by
  have hmiss : handleAt s w.hipblas_handles_ = none →
      (GetHandle s c p t w).2.trace = w.trace ++
        (match c with
         | .failed code => [Call.hipblasCreate (.other code) none]
         | .created h =>
           if p = .HIPBLAS_STATUS_SUCCESS then
             [Call.hipblasCreate .HIPBLAS_STATUS_SUCCESS (some h),
              Call.hipblasSetPointerMode h .HIPBLAS_POINTER_MODE_HOST p,
              Call.hipblasSetStream h s t]
           else
             [Call.hipblasCreate .HIPBLAS_STATUS_SUCCESS (some h),
              Call.hipblasSetPointerMode h .HIPBLAS_POINTER_MODE_HOST p]) := by
    intro hm
    cases c with
    | failed code =>
      simp [GetHandle, withHIPGuard, GetHandle_body, handleAt_subscript, hm, HIPBLAS_ENFORCE,
        CAFFE_ENFORCE_EQ, World.log]
    | created h =>
      by_cases hp : p = .HIPBLAS_STATUS_SUCCESS
      · by_cases ht : t = .HIPBLAS_STATUS_SUCCESS <;>
          simp [GetHandle, withHIPGuard, GetHandle_body, handleAt_subscript, hm,
            HIPBLAS_ENFORCE, CAFFE_ENFORCE_EQ, World.log, hp, ht]
      · simp [GetHandle, withHIPGuard, GetHandle_body, handleAt_subscript, hm,
          HIPBLAS_ENFORCE, CAFFE_ENFORCE_EQ, World.log, hp]
  refine ⟨fun h hh => GetHandle_hit s c p t w h hh, fun hm => ⟨hmiss hm, ?_⟩, ?_⟩
  · cases c with
    | failed code =>
      simp [GetHandle, withHIPGuard, GetHandle_body, handleAt_subscript, hm, HIPBLAS_ENFORCE,
        CAFFE_ENFORCE_EQ]
    | created h =>
      by_cases hp : p = .HIPBLAS_STATUS_SUCCESS
      · by_cases ht : t = .HIPBLAS_STATUS_SUCCESS <;>
          simp [GetHandle, withHIPGuard, GetHandle_body, handleAt_subscript, hm,
            HIPBLAS_ENFORCE, CAFFE_ENFORCE_EQ, hp, ht]
      · simp [GetHandle, withHIPGuard, GetHandle_body, handleAt_subscript, hm,
          HIPBLAS_ENFORCE, CAFFE_ENFORCE_EQ, hp]
  · intro h2 s2 st hmem
    cases hm : handleAt s w.hipblas_handles_ with
    | some h =>
      rw [GetHandle_hit s c p t w h hm] at hmem
      exact Or.inl hmem
    | none =>
      rw [hmiss hm, List.mem_append] at hmem
      rcases hmem with hold | hnew
      · exact Or.inl hold
      · right
        cases c with
        | failed code => simp at hnew
        | created h =>
          by_cases hp : p = .HIPBLAS_STATUS_SUCCESS
          · simp only [hp, if_true, List.mem_cons, List.mem_singleton, List.not_mem_nil,
              or_false, Call.hipblasSetStream.injEq, false_or, reduceCtorEq] at hnew
            obtain ⟨e1, e2, e3⟩ := hnew
            exact ⟨rfl, by rw [e1], hp, e2, e3⟩
          · simp [hp] at hnew

/-- Witness for C8 (amended): a hit on the world in which handle 7 is stored; a
miss on the fresh world whose vendor calls succeed; and a miss whose
set-pointer-mode call fails, after which no set-stream call is in the trace. -/
theorem GetHandle_set_stream_on_miss_only_witness :
    GetHandle ⟨0, 1⟩ (.created 8) .HIPBLAS_STATUS_SUCCESS .HIPBLAS_STATUS_SUCCESS
      { sampleWorld with hipblas_handles_ := [(⟨0, 1⟩, some 7)] } =
      (.ok (some 7), { sampleWorld with hipblas_handles_ := [(⟨0, 1⟩, some 7)] }) ∧
    (GetHandle ⟨0, 1⟩ (.created 8) .HIPBLAS_STATUS_SUCCESS .HIPBLAS_STATUS_SUCCESS
      sampleWorld).2.trace = sampleWorld.trace ++
        [Call.hipblasCreate .HIPBLAS_STATUS_SUCCESS (some 8),
         Call.hipblasSetPointerMode 8 .HIPBLAS_POINTER_MODE_HOST .HIPBLAS_STATUS_SUCCESS,
         Call.hipblasSetStream 8 ⟨0, 1⟩ .HIPBLAS_STATUS_SUCCESS] ∧
    (GetHandle ⟨0, 1⟩ (.created 8) (.other 1) .HIPBLAS_STATUS_SUCCESS
      sampleWorld).2.trace = sampleWorld.trace ++
        [Call.hipblasCreate .HIPBLAS_STATUS_SUCCESS (some 8),
         Call.hipblasSetPointerMode 8 .HIPBLAS_POINTER_MODE_HOST (.other 1)] ∧
    (GetHandle ⟨0, 1⟩ (.failed 3) .HIPBLAS_STATUS_SUCCESS .HIPBLAS_STATUS_SUCCESS
      sampleWorld).2.trace = sampleWorld.trace ++ [Call.hipblasCreate (.other 3) none] :=
  ⟨(GetHandle_set_stream_on_miss_only ⟨0, 1⟩ (.created 8) .HIPBLAS_STATUS_SUCCESS
      .HIPBLAS_STATUS_SUCCESS { sampleWorld with hipblas_handles_ := [(⟨0, 1⟩, some 7)] }).1 7
      (by decide),
   ((GetHandle_set_stream_on_miss_only ⟨0, 1⟩ (.created 8) .HIPBLAS_STATUS_SUCCESS
      .HIPBLAS_STATUS_SUCCESS sampleWorld).2.1 (by decide)).1,
   ((GetHandle_set_stream_on_miss_only ⟨0, 1⟩ (.created 8) (.other 1)
      .HIPBLAS_STATUS_SUCCESS sampleWorld).2.1 (by decide)).1,
   ((GetHandle_set_stream_on_miss_only ⟨0, 1⟩ (.failed 3) .HIPBLAS_STATUS_SUCCESS
      .HIPBLAS_STATUS_SUCCESS sampleWorld).2.1 (by decide)).1⟩

/-! ## Synchronization and events: C9, C10 -/

/-- C9, counterexample: when the synchronization reports "not ready",
`FinishDeviceComputation` raises. -/
theorem FinishDeviceComputation_not_ready_raises :
    (HIPContext.FinishDeviceComputation sampleEnv sampleContext .hipErrorNotReady
      sampleWorld).1 = .error (.EnforceNotMet "Error at: ") := by
  decide

/-- C9, amended: `FinishDeviceComputation` makes one synchronization call, on
the stream `GetStream(gpu_id_)` resolves to, and raises if and only if the
reported status is not success ("not ready" included); it returns normally
exactly for success. -/
theorem FinishDeviceComputation_raises_iff_not_success (E : Env) (ctx : HIPContext)
    (sync : hipError_t) (w : World) :
    (HIPContext.FinishDeviceComputation E ctx sync w).2 =
      { w with trace := w.trace ++ [Call.hipStreamSynchronize (GetStream E ctx.gpu_id_ w) sync] } ∧
    ((∃ e, (HIPContext.FinishDeviceComputation E ctx sync w).1 = .error e) ↔
      sync ≠ .hipSuccess) ∧
    ((HIPContext.FinishDeviceComputation E ctx sync w).1 = .ok () ↔ sync = .hipSuccess) := by
  refine ⟨rfl, ?_, ?_⟩
  · by_cases h : sync = .hipSuccess <;>
      simp [HIPContext.FinishDeviceComputation, HIP_ENFORCE, CAFFE_ENFORCE_EQ, h]
  · by_cases h : sync = .hipSuccess <;>
      simp [HIPContext.FinishDeviceComputation, HIP_ENFORCE, CAFFE_ENFORCE_EQ, h]

/-- C10: `Record` on a null event raises and makes no call on the event; on
an event that is not null it makes exactly one `Record` call on it, with device
kind HIP, this context and `err_msg`, and its outcome is the outcome of that
call. -/
theorem Record_null_raises_else_delegates (ctx : HIPContext) (err_msg : Option String)
    (record : Except Error Unit) (w : World) :
    HIPContext.Record ctx none err_msg record w =
      (.error (.EnforceNotMet "Event must not be null."), w) ∧
    ∀ ev : Nat, HIPContext.Record ctx (some ev) err_msg record w =
      (record, { w with trace := w.trace ++ [Call.eventRecord ev .HIP ctx err_msg] }) := by
  constructor
  · simp [HIPContext.Record, CAFFE_ENFORCE]
  · intro ev
    simp [HIPContext.Record, CAFFE_ENFORCE, World.log]

/-! ## More lemmas on the stream pool -/

theorem emplace_back_stream_trace (E : Env) (gpu : DeviceIndex) (w : World) :
    (emplace_back_stream E gpu w).trace = w.trace ++ [Call.getStreamFromPool false gpu] := by
  simp [emplace_back_stream, getStreamFromPool]

/-- The loop makes exactly as many requests as entries are missing, each one a
request without high priority for `gpu`. -/
theorem GetHIPStream_loop_requests (E : Env) (gpu : DeviceIndex) (target fuel : Nat) (w : World)
    (hfuel : fuel ≤ target + 1 - (w.hip_streams_ gpu).length) :
    (GetHIPStream_loop E gpu target fuel w).trace =
      w.trace ++ List.replicate fuel (Call.getStreamFromPool false gpu) ∧
    ((GetHIPStream_loop E gpu target fuel w).hip_streams_ gpu).length =
      (w.hip_streams_ gpu).length + fuel ∧
    (GetHIPStream_loop E gpu target fuel w).acquired gpu = w.acquired gpu + fuel := by
  induction fuel generalizing w with
  | zero => simp [GetHIPStream_loop]
  | succ n ih =>
    have hlen : (w.hip_streams_ gpu).length ≤ target := by omega
    have hn : n ≤ target + 1 - ((emplace_back_stream E gpu w).hip_streams_ gpu).length := by
      rw [emplace_back_stream_pool]
      simp only [List.length_append, List.length_singleton]
      omega
    obtain ⟨h1, h2, h3⟩ := ih (emplace_back_stream E gpu w) hn
    simp only [GetHIPStream_loop, hlen, if_true]
    refine ⟨?_, ?_, ?_⟩
    · rw [h1, emplace_back_stream_trace, List.append_assoc]
      congr 1
    · rw [h2, emplace_back_stream_pool]
      simp only [List.length_append, List.length_singleton]
      omega
    · rw [h3, emplace_back_stream_acquired]
      simp only [Function.update_same]
      omega

/-- The stream `GetHIPStream` returns is the entry of the pool at the index,
which is in range after the call. -/
theorem GetHIPStream_entry (E : Env) (gpu : DeviceIndex) (stream_id : StreamId) (w : World) :
    ((GetHIPStream E gpu stream_id w).2.hip_streams_ gpu)[size_t_cast stream_id]? =
      some (GetHIPStream E gpu stream_id w).1 := by
  have hcov := GetHIPStream_covers E gpu stream_id w
  simp only [GetHIPStream] at hcov ⊢
  rw [List.getD_eq_getElem?_getD, List.getElem?_eq_getElem hcov]
  rfl

/-- The loop does not look at the current streams: it commutes with a change
of them. -/
theorem GetHIPStream_loop_current (E : Env) (gpu : DeviceIndex) (target fuel : Nat) (w : World)
    (cs : DeviceIndex → HIPStream) :
    GetHIPStream_loop E gpu target fuel { w with current_stream := cs } =
      { GetHIPStream_loop E gpu target fuel w with current_stream := cs } := by
  induction fuel generalizing w with
  | zero => simp [GetHIPStream_loop]
  | succ n ih =>
    simp only [GetHIPStream_loop]
    split
    · have he : emplace_back_stream E gpu { w with current_stream := cs } =
          { emplace_back_stream E gpu w with current_stream := cs } := by
        simp [emplace_back_stream, getStreamFromPool]
      rw [he, ih]
    · rfl

/-! ## Lemmas on the random number generator of a context -/

theorem hiprandCalls_append (a b : List Call) :
    hiprandCalls (a ++ b) = hiprandCalls a ++ hiprandCalls b := by
  simp [hiprandCalls]

theorem hiprandCalls_GetHIPStream (E : Env) (gpu : DeviceIndex) (stream_id : StreamId)
    (w : World) : hiprandCalls (GetHIPStream E gpu stream_id w).2.trace = hiprandCalls w.trace := by
  obtain ⟨h1, _, _⟩ := GetHIPStream_loop_requests E gpu (size_t_cast stream_id)
    (size_t_cast stream_id + 1 - (w.hip_streams_ gpu).length) w (le_refl _)
  simp only [GetHIPStream]
  rw [h1, hiprandCalls_append]
  have : hiprandCalls (List.replicate (size_t_cast stream_id + 1 - (w.hip_streams_ gpu).length)
      (Call.getStreamFromPool false gpu)) = [] := by
    simp [hiprandCalls, List.filter_eq_nil_iff, Call.isHiprand]
  rw [this, List.append_nil]

theorem hiprandCalls_GetHandle (s : HIPStream) (c : CreateResult) (p t : hipblasStatus_t)
    (w : World) : hiprandCalls (GetHandle s c p t w).2.trace = hiprandCalls w.trace := by
  simp only [GetHandle, withHIPGuard, GetHandle_body, World.log]
  repeat' split
  all_goals simp [hiprandCalls, List.filter_append, Call.isHiprand]

/-- Registry calls make no hipRAND call. -/
theorem hiprandCalls_apply (E : Env) (op : Op) (w : World) :
    hiprandCalls (op.apply E w).trace = hiprandCalls w.trace := by
  cases op with
  | GetHIPStream gpu stream_id => exact hiprandCalls_GetHIPStream E gpu stream_id w
  | SetCurrentStreamId gpu stream_id =>
    simp only [Op.apply, SetCurrentStreamId]
    split
    · have := hiprandCalls_GetHIPStream E gpu stream_id w
      simp only [setCurrentHIPStream, hiprandCalls_append, this]
      simp [hiprandCalls, Call.isHiprand]
    · rfl
  | GetHandle s c p t => exact hiprandCalls_GetHandle s c p t w
  | GetHandleOfDevice gpu c p t => exact hiprandCalls_GetHandle _ c p t w

theorem hiprandCalls_run (E : Env) (ops : List Op) (w : World) :
    hiprandCalls (run E ops w).trace = hiprandCalls w.trace := by
  induction ops generalizing w with
  | nil => rfl
  | cons op ops ih => simp only [run]; rw [ih, hiprandCalls_apply]

/-- A successful call on a context without generator: the generator is made,
its seed is set to `random_seed_`, it is bound to the current stream, and the
context keeps it. -/
theorem hiprand_generator_first (E : Env) (ctx : HIPContext) (c : GeneratorResult)
    (s t : hiprandStatus_t) (w : World) (g : Nat) (hfresh : ctx.hiprand_generator_ = none)
    (h : (HIPContext.hiprand_generator E ctx c s t w).1 = .ok g) :
    (HIPContext.hiprand_generator E ctx c s t w).2.1 = { ctx with hiprand_generator_ := some g } ∧
    (HIPContext.hiprand_generator E ctx c s t w).2.2.trace = w.trace ++
      [Call.hiprandCreateGenerator .HIPRAND_STATUS_SUCCESS (some g),
       Call.hiprandSetPseudoRandomGeneratorSeed g ctx.random_seed_ .HIPRAND_STATUS_SUCCESS,
       Call.hiprandSetStream g (GetStream E ctx.gpu_id_ w) .HIPRAND_STATUS_SUCCESS] := by
  cases c with
  | failed code =>
    simp [HIPContext.hiprand_generator, hfresh, withHIPGuard, hiprand_generator_init,
      HIPRAND_ENFORCE, CAFFE_ENFORCE_EQ] at h
  | created g1 =>
    by_cases hs : s = .HIPRAND_STATUS_SUCCESS
    · by_cases ht : t = .HIPRAND_STATUS_SUCCESS
      · subst hs ht
        simp only [HIPContext.hiprand_generator, hfresh, withHIPGuard, hiprand_generator_init,
          HIPRAND_ENFORCE, CAFFE_ENFORCE_EQ, TORCH_CHECK_NOTNULL, World.log, if_true,
          Option.isSome_some, Except.ok.injEq] at h
        subst h
        simp [HIPContext.hiprand_generator, hfresh, withHIPGuard, hiprand_generator_init,
          HIPRAND_ENFORCE, CAFFE_ENFORCE_EQ, TORCH_CHECK_NOTNULL, World.log,
          HIPContext.hip_stream, GetStream, getCurrentHIPStream]
      · simp [HIPContext.hiprand_generator, hfresh, withHIPGuard, hiprand_generator_init,
          HIPRAND_ENFORCE, CAFFE_ENFORCE_EQ, TORCH_CHECK_NOTNULL, hs, ht] at h
    · simp [HIPContext.hiprand_generator, hfresh, withHIPGuard, hiprand_generator_init,
        HIPRAND_ENFORCE, CAFFE_ENFORCE_EQ, hs] at h

/-- A call on a context that has a generator makes one vendor call, the one
that binds the generator to the current stream; it creates nothing and sets no
seed, keeps the context, and when it succeeds it returns that generator. -/
theorem hiprand_generator_again (E : Env) (ctx : HIPContext) (c : GeneratorResult)
    (s t : hiprandStatus_t) (w : World) (g0 : Nat) (hgen : ctx.hiprand_generator_ = some g0) :
    (HIPContext.hiprand_generator E ctx c s t w).2.1 = ctx ∧
    (HIPContext.hiprand_generator E ctx c s t w).2.2.trace = w.trace ++
      [Call.hiprandSetStream g0 (GetStream E ctx.gpu_id_ w) t] ∧
    (∀ g, (HIPContext.hiprand_generator E ctx c s t w).1 = .ok g →
      g = g0 ∧ t = .HIPRAND_STATUS_SUCCESS) := by
  by_cases ht : t = .HIPRAND_STATUS_SUCCESS
  · subst ht
    simp [HIPContext.hiprand_generator, hgen, HIPRAND_ENFORCE, CAFFE_ENFORCE_EQ, World.log,
      HIPContext.hip_stream]
  · simp [HIPContext.hiprand_generator, hgen, HIPRAND_ENFORCE, CAFFE_ENFORCE_EQ, World.log,
      HIPContext.hip_stream, ht]

/-- A sequence of successful calls on a context that has a generator: every
call returns it, and the hipRAND calls made are one binding per call. -/
theorem hiprand_generator_calls_bound (E : Env) (calls : List GeneratorCall) (ctx : HIPContext)
    (w : World) (g0 : Nat) (hgen : ctx.hiprand_generator_ = some g0)
    (hok : ∀ r ∈ (hiprand_generator_calls E calls ctx w).1, ∃ g, r = .ok g) :
    (hiprand_generator_calls E calls ctx w).1 = List.replicate calls.length (.ok g0) ∧
    (hiprand_generator_calls E calls ctx w).2.1 = ctx ∧
    ∃ streams : List hipStream_t, streams.length = calls.length ∧
      hiprandCalls (hiprand_generator_calls E calls ctx w).2.2.trace =
        hiprandCalls w.trace ++
          streams.map (fun st => Call.hiprandSetStream g0 st .HIPRAND_STATUS_SUCCESS) := by
  induction calls generalizing w with
  | nil => exact ⟨rfl, rfl, [], rfl, by simp [hiprand_generator_calls]⟩
  | cons c cs ih =>
    obtain ⟨hctx, htr, hret⟩ := hiprand_generator_again E ctx c.create c.setSeed c.setStream
      (run E c.before w) g0 hgen
    simp only [hiprand_generator_calls] at hok ⊢
    rw [hctx] at hok ⊢
    obtain ⟨g, hg⟩ := hok _ (List.mem_cons_self _ _)
    obtain ⟨hgg, ht⟩ := hret g hg
    subst hgg
    have hrest := ih (HIPContext.hiprand_generator E ctx c.create c.setSeed c.setStream
      (run E c.before w)).2.2 (fun r hr => hok r (List.mem_cons_of_mem _ hr))
    obtain ⟨h1, h2, streams, hlen, h3⟩ := hrest
    refine ⟨?_, h2, GetStream E ctx.gpu_id_ (run E c.before w) :: streams, ?_, ?_⟩
    · rw [hg, h1]; rfl
    · simp [hlen]
    · rw [h3, htr, hiprandCalls_append, hiprandCalls_run, ht]
      simp [hiprandCalls, Call.isHiprand]

/-! ## Lemmas on the grid sizes -/

/-- The sum `N + k - 1`, computed in `int` from left to right, is exact when
`N + k - 1` fits an `int`, also when `N + k` itself does not. -/
theorem wrap_int32_add_sub_one (N k : Int) (hk : 1 ≤ k) (hk2 : k ≤ 2 ^ 31)
    (hlo : -2 ^ 31 ≤ N) (hhi : N + k - 1 ≤ 2 ^ 31 - 1) :
    wrap_int32 (wrap_int32 (N + k) - 1) = N + k - 1 := by
  unfold wrap_int32
  omega

/-- Truncated division by a positive number, by the sign of the dividend. -/
theorem tdiv_pos_cases (a d : Int) (hd : 0 < d) :
    (0 ≤ a ∧ a.tdiv d = a / d) ∨ (a < 0 ∧ a.tdiv d = -((-a) / d)) := by
  by_cases ha : 0 ≤ a
  · exact Or.inl ⟨ha, Int.tdiv_eq_ediv ha (le_of_lt hd)⟩
  · refine Or.inr ⟨by omega, ?_⟩
    have h1 : (-a).tdiv d = (-a) / d := Int.tdiv_eq_ediv (by omega) (le_of_lt hd)
    rw [← h1, Int.neg_tdiv, neg_neg]

/-- The ceiling of `N / d` for a positive integer `d`, by integer division. -/
theorem ceil_div_eq (N d : Int) (hd : 0 < d) : ⌈(N : ℚ) / (d : ℚ)⌉ = (N + d - 1) / d := by
  rw [Int.ceil_eq_iff]
  have hdq : (0 : ℚ) < (d : ℚ) := by exact_mod_cast hd
  have h1 : d * ((N + d - 1) / d) ≤ N + d - 1 := Int.mul_ediv_self_le (by omega)
  have h2 : N + d - 1 < d * ((N + d - 1) / d) + d := Int.lt_mul_ediv_self_add hd
  constructor
  · rw [lt_div_iff₀ hdq]
    have : ((N + d - 1) / d - 1) * d < N := by nlinarith
    exact_mod_cast this
  · rw [div_le_iff₀ hdq]
    have : N ≤ ((N + d - 1) / d) * d := by nlinarith
    exact_mod_cast this

/-- The clamped quotient of the two grid functions: for a block size `d` and a
maximum `m`, it is the ceiling of `N / d` clamped to the range from 1 to `m`. -/
theorem clamped_blocks_eq (N d m : Int) (hd : 1 ≤ d) (hd2 : d ≤ 2 ^ 31) (hm : 1 ≤ m)
    (hlo : -2 ^ 31 ≤ N) (hhi : N + d - 1 ≤ 2 ^ 31 - 1) :
    max (min (Int.tdiv (wrap_int32 (wrap_int32 (N + d) - 1)) d) m) 1 =
      max 1 (min ⌈(N : ℚ) / (d : ℚ)⌉ m) := by
  rw [wrap_int32_add_sub_one N d hd hd2 hlo hhi, ceil_div_eq N d (by omega)]
  have h1 : d * ((N + d - 1) / d) ≤ N + d - 1 := Int.mul_ediv_self_le (by omega)
  have h2 : N + d - 1 < d * ((N + d - 1) / d) + d := Int.lt_mul_ediv_self_add (by omega)
  rcases tdiv_pos_cases (N + d - 1) d (by omega) with ⟨_, ht⟩ | ⟨hneg, ht⟩
  · rw [ht, max_comm]
  · rw [ht]
    have h3 : 0 ≤ (-(N + d - 1)) / d := Int.ediv_nonneg (by omega) (by omega)
    have h4 : (N + d - 1) / d < 0 := Int.ediv_neg' hneg (by omega)
    omega

/-! ## Installing the current stream: C11 -/

/-- C11: in a registry that was made empty and then used by any sequence of
registry calls, with a facility that hands out streams of the device asked
for, `SetCurrentStreamId(d, l)` with `l != -1` makes the pool stream
`GetStream(d, l)` the current stream of `d`: `GetStream(d)` returns it
afterwards, and so it does after `SwitchToDevice(l)` on a context bound to `d`,
which also makes `d` the active device. -/
theorem SetCurrentStreamId_installs_pool_stream (E : Env) (w0 : World) (ops : List Op)
    (ctx : HIPContext) (l : StreamId)
    (hE : ∀ k, (E.getStreamFromPool false ctx.gpu_id_ k).device_index = ctx.gpu_id_)
    (hl : l ≠ -1) :
    GetStream E ctx.gpu_id_
        (SetCurrentStreamId E ctx.gpu_id_ l (run E ops (ThreadLocalHIPObjects_new w0))) =
      (GetStreamById E ctx.gpu_id_ l (run E ops (ThreadLocalHIPObjects_new w0))).1 ∧
    (GetStreamById E ctx.gpu_id_ l
        (SetCurrentStreamId E ctx.gpu_id_ l (run E ops (ThreadLocalHIPObjects_new w0)))).1 =
      GetStream E ctx.gpu_id_
        (SetCurrentStreamId E ctx.gpu_id_ l (run E ops (ThreadLocalHIPObjects_new w0))) ∧
    GetStream E ctx.gpu_id_
        (HIPContext.SwitchToDevice E ctx l (run E ops (ThreadLocalHIPObjects_new w0))) =
      (GetStreamById E ctx.gpu_id_ l (run E ops (ThreadLocalHIPObjects_new w0))).1 ∧
    (HIPContext.SwitchToDevice E ctx l
      (run E ops (ThreadLocalHIPObjects_new w0))).active_device = ctx.gpu_id_ := by
  have hinv := PoolFromFacility_run E w0.acquired ops _ (PoolFromFacility_new E w0)
  have hdev : (GetHIPStream E ctx.gpu_id_ l
      (run E ops (ThreadLocalHIPObjects_new w0))).1.device_index = ctx.gpu_id_ := by
    rw [GetHIPStream_from_facility E w0.acquired ctx.gpu_id_ l _ hinv]
    exact hE _
  have hcur : GetStream E ctx.gpu_id_
      (SetCurrentStreamId E ctx.gpu_id_ l (run E ops (ThreadLocalHIPObjects_new w0))) =
      (GetStreamById E ctx.gpu_id_ l (run E ops (ThreadLocalHIPObjects_new w0))).1 := by
    simp [GetStream, getCurrentHIPStream, SetCurrentStreamId, hl, setCurrentHIPStream,
      GetStreamById, hdev]
  refine ⟨hcur, ?_, ?_, ?_⟩
  · rw [hcur]
    have hcov := GetHIPStream_covers E ctx.gpu_id_ l (run E ops (ThreadLocalHIPObjects_new w0))
    have hpop := GetHIPStream_populated E ctx.gpu_id_ l
      (setCurrentHIPStream
        (GetHIPStream E ctx.gpu_id_ l (run E ops (ThreadLocalHIPObjects_new w0))).1
        (GetHIPStream E ctx.gpu_id_ l (run E ops (ThreadLocalHIPObjects_new w0))).2) hcov
    simp only [GetStreamById, SetCurrentStreamId, hl, ne_eq, not_false_eq_true, if_true]
    rw [hpop]
    rfl
  · simpa [HIPContext.SwitchToDevice, CaffeHipSetDevice, GetStream, getCurrentHIPStream]
      using hcur
  · simp [HIPContext.SwitchToDevice, CaffeHipSetDevice]

/-- Witness for C11: the round robin facility hands out streams of the device
asked for; after `SetCurrentStreamId(0, 3)` the current stream of device 0 is
the pool stream of logical id 3. -/
theorem SetCurrentStreamId_installs_pool_stream_witness :
    GetStream sampleEnv 0
        (SetCurrentStreamId sampleEnv 0 3
          (run sampleEnv [Op.GetHIPStream 0 1] (ThreadLocalHIPObjects_new sampleWorld))) =
      (GetStreamById sampleEnv 0 3
        (run sampleEnv [Op.GetHIPStream 0 1] (ThreadLocalHIPObjects_new sampleWorld))).1 :=
  (SetCurrentStreamId_installs_pool_stream sampleEnv sampleWorld [Op.GetHIPStream 0 1]
    sampleContext 3 (fun _ => rfl) (by decide)).1

/-! ## Growth of the stream pool: C12 -/

/-- C12: for a pool of `d` with `n` entries and a logical id `l >= 0`,
`GetHIPStream(d, l)` returns after exactly `l + 1 - n` (zero when `n > l`)
requests without high priority for `d` and no other external call; the pool of
`d` then has `max n (l + 1)` entries, its first `n` entries are the old ones,
the pool of every other device is as before, and the result is the entry at
index `l`. -/
theorem GetHIPStream_fills_pool_up_to_index (E : Env) (d : DeviceIndex) (l : StreamId)
    (w : World) (h0 : 0 ≤ l) (hr : l < 2 ^ 63) :
    (GetHIPStream E d l w).2.trace = w.trace ++
      List.replicate (l.toNat + 1 - (w.hip_streams_ d).length)
        (Call.getStreamFromPool false d) ∧
    ((GetHIPStream E d l w).2.hip_streams_ d).length =
      max (w.hip_streams_ d).length (l.toNat + 1) ∧
    ((GetHIPStream E d l w).2.hip_streams_ d).take (w.hip_streams_ d).length =
      w.hip_streams_ d ∧
    (∀ d2, d2 ≠ d → (GetHIPStream E d l w).2.hip_streams_ d2 = w.hip_streams_ d2) ∧
    ((GetHIPStream E d l w).2.hip_streams_ d)[l.toNat]? = some (GetHIPStream E d l w).1 := by
  have hent := GetHIPStream_entry E d l w
  rw [size_t_cast_of_nonneg l h0 hr] at hent
  obtain ⟨h1, h2, _⟩ := GetHIPStream_loop_requests E d (size_t_cast l)
    (size_t_cast l + 1 - (w.hip_streams_ d).length) w (le_refl _)
  obtain ⟨ext, hext⟩ := GetHIPStream_loop_grows E d (size_t_cast l)
    (size_t_cast l + 1 - (w.hip_streams_ d).length) w
  rw [size_t_cast_of_nonneg l h0 hr] at h1 h2 hext
  refine ⟨?_, ?_, ?_, ?_, hent⟩
  · simpa [GetHIPStream, size_t_cast_of_nonneg l h0 hr] using h1
  · simp only [GetHIPStream, size_t_cast_of_nonneg l h0 hr]
    rw [h2]
    omega
  · simp only [GetHIPStream, size_t_cast_of_nonneg l h0 hr]
    rw [hext]
    simp
  · intro d2 hd
    simp only [GetHIPStream]
    exact GetHIPStream_loop_pool_other E d d2 _ _ w hd

/-- Witness for C12: on the empty pool of device 0, logical id 2 takes three
requests. -/
theorem GetHIPStream_fills_pool_up_to_index_witness :
    (GetHIPStream sampleEnv 0 2 sampleWorld).2.trace = sampleWorld.trace ++
      List.replicate ((2 : Int).toNat + 1 - (sampleWorld.hip_streams_ 0).length)
        (Call.getStreamFromPool false 0) ∧
    ((GetHIPStream sampleEnv 0 2 sampleWorld).2.hip_streams_ 0).length =
      max (sampleWorld.hip_streams_ 0).length ((2 : Int).toNat + 1) ∧
    ((GetHIPStream sampleEnv 0 2 sampleWorld).2.hip_streams_ 0).take
      (sampleWorld.hip_streams_ 0).length = sampleWorld.hip_streams_ 0 ∧
    (∀ d2, d2 ≠ 0 →
      (GetHIPStream sampleEnv 0 2 sampleWorld).2.hip_streams_ d2 = sampleWorld.hip_streams_ d2) ∧
    ((GetHIPStream sampleEnv 0 2 sampleWorld).2.hip_streams_ 0)[(2 : Int).toNat]? =
      some (GetHIPStream sampleEnv 0 2 sampleWorld).1 :=
  GetHIPStream_fills_pool_up_to_index sampleEnv 0 2 sampleWorld (by decide) (by decide)

/-! ## The random number generator: C13 -/

/-- C13: take a context without generator and any sequence of `k >= 1` calls
of `hiprand_generator()` on it that all succeed, with any registry calls on the
thread in between.  Then there is one generator `g` that every call returns;
the hipRAND calls made are one create call (of `g`), then one seed call (of `g`,
with `random_seed_`), then `k` set-stream calls of `g`, one per call of
`hiprand_generator()`; the context holds `g` afterwards.  And any successful
call ends with the set-stream call that binds the returned generator to the
current stream of the context's device, as it is at that call. -/
theorem hiprand_generator_created_and_seeded_once (E : Env) (ctx : HIPContext) (w : World)
    (calls : List GeneratorCall) (hfresh : ctx.hiprand_generator_ = none) (hne : calls ≠ [])
    (hok : ∀ r ∈ (hiprand_generator_calls E calls ctx w).1, ∃ g, r = .ok g) :
    (∃ (g : Nat) (streams : List hipStream_t),
      (hiprand_generator_calls E calls ctx w).1 = List.replicate calls.length (.ok g) ∧
      (hiprand_generator_calls E calls ctx w).2.1 = { ctx with hiprand_generator_ := some g } ∧
      streams.length = calls.length ∧
      hiprandCalls (hiprand_generator_calls E calls ctx w).2.2.trace =
        hiprandCalls w.trace ++
          [Call.hiprandCreateGenerator .HIPRAND_STATUS_SUCCESS (some g),
           Call.hiprandSetPseudoRandomGeneratorSeed g ctx.random_seed_
             .HIPRAND_STATUS_SUCCESS] ++
          streams.map (fun st => Call.hiprandSetStream g st .HIPRAND_STATUS_SUCCESS)) ∧
    (∀ (ctx2 : HIPContext) (c : GeneratorResult) (s t : hiprandStatus_t) (w2 : World) (g2 : Nat),
      (HIPContext.hiprand_generator E ctx2 c s t w2).1 = .ok g2 →
      (HIPContext.hiprand_generator E ctx2 c s t w2).2.2.trace.getLast? =
        some (Call.hiprandSetStream g2 (GetStream E ctx2.gpu_id_ w2) .HIPRAND_STATUS_SUCCESS)) := by
  constructor
  · cases calls with
    | nil => exact absurd rfl hne
    | cons c cs =>
      simp only [hiprand_generator_calls] at hok ⊢
      obtain ⟨g, hg⟩ := hok _ (List.mem_cons_self _ _)
      obtain ⟨hctx, htr⟩ := hiprand_generator_first E ctx c.create c.setSeed c.setStream
        (run E c.before w) g hfresh hg
      rw [hctx] at hok ⊢
      obtain ⟨h1, h2, streams, hlen, h3⟩ := hiprand_generator_calls_bound E cs
        { ctx with hiprand_generator_ := some g }
        (HIPContext.hiprand_generator E ctx c.create c.setSeed c.setStream
          (run E c.before w)).2.2 g rfl (fun r hr => hok r (List.mem_cons_of_mem _ hr))
      refine ⟨g, GetStream E ctx.gpu_id_ (run E c.before w) :: streams, ?_, h2, ?_, ?_⟩
      · rw [hg, h1]; rfl
      · simp [hlen]
      · rw [h3, htr, hiprandCalls_append, hiprandCalls_run]
        simp [hiprandCalls, Call.isHiprand]
  · intro ctx2 c s t w2 g2 h
    cases hgen : ctx2.hiprand_generator_ with
    | none =>
      obtain ⟨_, htr⟩ := hiprand_generator_first E ctx2 c s t w2 g2 hgen h
      rw [htr]
      simp
    | some g0 =>
      obtain ⟨_, htr, hret⟩ := hiprand_generator_again E ctx2 c s t w2 g0 hgen
      obtain ⟨hg, ht⟩ := hret g2 h
      rw [htr, hg, ht]
      simp

/-- Witness for C13: three successful calls on a fresh context bound to device
0, with a switch of the current stream before the second call. -/
theorem hiprand_generator_created_and_seeded_once_witness :
    ∃ (g : Nat) (streams : List hipStream_t),
      (hiprand_generator_calls sampleEnv sampleGeneratorCalls sampleContext sampleWorld).1 =
        List.replicate sampleGeneratorCalls.length (.ok g) ∧
      (hiprand_generator_calls sampleEnv sampleGeneratorCalls sampleContext sampleWorld).2.1 =
        { sampleContext with hiprand_generator_ := some g } ∧
      streams.length = sampleGeneratorCalls.length ∧
      hiprandCalls
        (hiprand_generator_calls sampleEnv sampleGeneratorCalls sampleContext
          sampleWorld).2.2.trace =
        hiprandCalls sampleWorld.trace ++
          [Call.hiprandCreateGenerator .HIPRAND_STATUS_SUCCESS (some g),
           Call.hiprandSetPseudoRandomGeneratorSeed g sampleContext.random_seed_
             .HIPRAND_STATUS_SUCCESS] ++
          streams.map (fun st => Call.hiprandSetStream g st .HIPRAND_STATUS_SUCCESS) :=
  (hiprand_generator_created_and_seeded_once sampleEnv sampleContext sampleWorld
    sampleGeneratorCalls rfl (by simp [sampleGeneratorCalls])
    (by
      have hres : (hiprand_generator_calls sampleEnv sampleGeneratorCalls sampleContext
          sampleWorld).1 = [.ok 5, .ok 5, .ok 5] := by decide
      intro r hr
      rw [hres] at hr
      refine ⟨5, ?_⟩
      simpa using hr)).1

/-! ## Number of blocks: C14 -/

/-- C14: for every `int` `N` for which `N + 127` does not overflow,
`CAFFE_GET_BLOCKS(N)` is the ceiling of `N / 128` clamped to the range from 1 to
4096; so it lies between 1 and 4096, and for `1 <= N <= 4096 * 128` it is the
least `b` with `b * 128 >= N`. -/
theorem CAFFE_GET_BLOCKS_clamped_ceiling (N : Int) (hlo : -2 ^ 31 ≤ N)
    (hhi : N + 127 ≤ 2 ^ 31 - 1) :
    CAFFE_GET_BLOCKS N = max 1 (min ⌈(N : ℚ) / 128⌉ 4096) ∧
    1 ≤ CAFFE_GET_BLOCKS N ∧ CAFFE_GET_BLOCKS N ≤ 4096 ∧
    (1 ≤ N → N ≤ 4096 * 128 →
      N ≤ CAFFE_GET_BLOCKS N * 128 ∧ ∀ b : Int, N ≤ b * 128 → CAFFE_GET_BLOCKS N ≤ b) := by
  have hEq := clamped_blocks_eq N 128 4096 (by norm_num) (by norm_num) (by norm_num) hlo
    (by omega)
  have hc := ceil_div_eq N 128 (by norm_num)
  have hdef : CAFFE_GET_BLOCKS N = max 1 (min ⌈(N : ℚ) / 128⌉ 4096) := by
    simp only [CAFFE_GET_BLOCKS, CAFFE_HIP_NUM_THREADS, CAFFE_MAXIMUM_NUM_BLOCKS]
    rw [hEq]
    norm_num
  have hc2 : ⌈(N : ℚ) / 128⌉ = (N + 128 - 1) / 128 := by
    rw [← hc]; norm_num
  refine ⟨hdef, ?_, ?_, ?_⟩
  · rw [hdef]; omega
  · rw [hdef]; omega
  · intro h1 h2
    rw [hdef, hc2]
    constructor
    · omega
    · intro b hb
      omega

/-- Witness for C14: 129 threads need two blocks. -/
theorem CAFFE_GET_BLOCKS_clamped_ceiling_witness :
    CAFFE_GET_BLOCKS 129 = max 1 (min ⌈((129 : Int) : ℚ) / 128⌉ 4096) ∧
    CAFFE_GET_BLOCKS 129 = 2 :=
  ⟨(CAFFE_GET_BLOCKS_clamped_ceiling 129 (by norm_num) (by norm_num)).1, by decide⟩

/-! ## Resolving a stream by logical id: C16 -/

/-- C16: `GetStream(d, l)` with `l >= 0` returns the raw stream of the pool
entry at index `l`; the result is the same whatever the current streams are,
and the call leaves the current stream of every device as it was.  The static
`hip_stream(d, l)` is this call, and `IsStreamFree(d, l)` queries the stream it
returns and leaves the current streams as they were as well. -/
theorem GetStream_by_id_bypasses_current (E : Env) (d : DeviceIndex) (l : StreamId) (w : World)
    (cs : DeviceIndex → HIPStream) (query : hipError_t) (h0 : 0 ≤ l) (hr : l < 2 ^ 63) :
    (∃ s, ((GetStreamById E d l w).2.hip_streams_ d)[l.toNat]? = some s ∧
      (GetStreamById E d l w).1 = E.stream s) ∧
    (GetStreamById E d l { w with current_stream := cs }).1 = (GetStreamById E d l w).1 ∧
    (GetStreamById E d l w).2.current_stream = w.current_stream ∧
    HIPContext.hip_stream_of E d l w = GetStreamById E d l w ∧
    (HIPContext.IsStreamFree E d l query w).2.current_stream = w.current_stream ∧
    Call.hipStreamQuery (GetStreamById E d l w).1 query ∈
      (HIPContext.IsStreamFree E d l query w).2.trace := by
  refine ⟨?_, ?_, ?_, rfl, ?_, ?_⟩
  · refine ⟨(GetHIPStream E d l w).1, ?_, rfl⟩
    have hent := GetHIPStream_entry E d l w
    rw [size_t_cast_of_nonneg l h0 hr] at hent
    exact hent
  · simp only [GetStreamById, GetHIPStream]
    rw [GetHIPStream_loop_current]
  · simp only [GetStreamById, GetHIPStream]
    exact (GetHIPStream_loop_frame E d _ _ w).2.1
  · have hf : (GetHIPStream E d l w).2.current_stream = w.current_stream :=
      (GetHIPStream_loop_frame E d _ _ w).2.1
    simp only [HIPContext.IsStreamFree, HIPContext.hip_stream_of, GetStreamById, World.log]
    repeat' split
    all_goals exact hf
  · simp only [HIPContext.IsStreamFree, HIPContext.hip_stream_of, GetStreamById, World.log]
    repeat' split
    all_goals simp

/-- Witness for C16: logical id 2 of device 0 on the fresh registry. -/
theorem GetStream_by_id_bypasses_current_witness :
    (GetStreamById sampleEnv 0 2 { sampleWorld with current_stream := fun _ => ⟨0, 9⟩ }).1 =
      (GetStreamById sampleEnv 0 2 sampleWorld).1 :=
  (GetStream_by_id_bypasses_current sampleEnv 0 2 sampleWorld (fun _ => ⟨0, 9⟩) .hipSuccess
    (by decide) (by decide)).2.1

/-! ## Handles left in the cache by a failed call: C17 -/

/-- C17, the code at the failing input.  On a fresh registry a first
`GetHandle(s)` creates handle 7 and sets its pointer mode, then its set-stream
call fails and the call raises; handle 7 stays in the map under `s`.  A second
`GetHandle(s)` succeeds and returns handle 7, which was never bound to `s`: the
trace holds no successful set-stream call.  Likewise, when the set-pointer-mode
call of the first call fails, the second call returns a handle for which
neither call has succeeded. -/
theorem GetHandle_returns_handle_left_by_failed_call :
    (GetHandle ⟨0, 1⟩ (.created 7) .HIPBLAS_STATUS_SUCCESS (.other 1) sampleWorld).1 =
      .error (.EnforceNotMet "Error at: ") ∧
    findHandle ⟨0, 1⟩ (GetHandle ⟨0, 1⟩ (.created 7) .HIPBLAS_STATUS_SUCCESS (.other 1)
      sampleWorld).2.hipblas_handles_ = some (some 7) ∧
    (GetHandle ⟨0, 1⟩ (.created 8) .HIPBLAS_STATUS_SUCCESS .HIPBLAS_STATUS_SUCCESS
      (GetHandle ⟨0, 1⟩ (.created 7) .HIPBLAS_STATUS_SUCCESS (.other 1)
        sampleWorld).2).1 = .ok (some 7) ∧
    ¬ configuredAndBound
      (GetHandle ⟨0, 1⟩ (.created 8) .HIPBLAS_STATUS_SUCCESS .HIPBLAS_STATUS_SUCCESS
        (GetHandle ⟨0, 1⟩ (.created 7) .HIPBLAS_STATUS_SUCCESS (.other 1)
          sampleWorld).2).2.trace 7 ⟨0, 1⟩ ∧
    (GetHandle ⟨0, 1⟩ (.created 8) .HIPBLAS_STATUS_SUCCESS .HIPBLAS_STATUS_SUCCESS
      (GetHandle ⟨0, 1⟩ (.created 7) (.other 1) .HIPBLAS_STATUS_SUCCESS
        sampleWorld).2).1 = .ok (some 7) ∧
    (GetHandle ⟨0, 1⟩ (.created 8) .HIPBLAS_STATUS_SUCCESS .HIPBLAS_STATUS_SUCCESS
      (GetHandle ⟨0, 1⟩ (.created 7) (.other 1) .HIPBLAS_STATUS_SUCCESS
        sampleWorld).2).2.trace =
      [Call.hipblasCreate .HIPBLAS_STATUS_SUCCESS (some 7),
       Call.hipblasSetPointerMode 7 .HIPBLAS_POINTER_MODE_HOST (.other 1)] := by
  decide

/-! ## Number of blocks of a 2D grid: C18 -/

/-- C18: `CAFFE_GET_BLOCKS_2D(N, M)` does not depend on `M`; when `N + 15`
does not overflow, `grid.x` and `grid.y` both are the ceiling of `N / 16`
clamped to the range from 1 to 128 (and `grid.z` is 1). -/
theorem CAFFE_GET_BLOCKS_2D_ignores_M (N M M2 : Int) (hlo : -2 ^ 31 ≤ N)
    (hhi : N + 15 ≤ 2 ^ 31 - 1) :
    CAFFE_GET_BLOCKS_2D N M = CAFFE_GET_BLOCKS_2D N M2 ∧
    ((CAFFE_GET_BLOCKS_2D N M).x : Int) = max 1 (min ⌈(N : ℚ) / 16⌉ 128) ∧
    ((CAFFE_GET_BLOCKS_2D N M).y : Int) = max 1 (min ⌈(N : ℚ) / 16⌉ 128) ∧
    1 ≤ (CAFFE_GET_BLOCKS_2D N M).x ∧ (CAFFE_GET_BLOCKS_2D N M).x ≤ 128 ∧
    1 ≤ (CAFFE_GET_BLOCKS_2D N M).y ∧ (CAFFE_GET_BLOCKS_2D N M).y ≤ 128 ∧
    (CAFFE_GET_BLOCKS_2D N M).z = 1 := by
  have hEq := clamped_blocks_eq N 16 128 (by norm_num) (by norm_num) (by norm_num) hlo
    (by omega)
  have hEq2 : max (min (Int.tdiv (wrap_int32 (wrap_int32 (N + 16) - 1)) 16) 128) 1 =
      max 1 (min ⌈(N : ℚ) / 16⌉ 128) := by
    rw [hEq]; norm_num
  have hx : ((CAFFE_GET_BLOCKS_2D N M).x : Int) = max 1 (min ⌈(N : ℚ) / 16⌉ 128) := by
    simp only [CAFFE_GET_BLOCKS_2D, CAFFE_HIP_NUM_THREADS_2D_DIMX,
      CAFFE_MAXIMUM_NUM_BLOCKS_2D_DIMX, to_uint32]
    rw [hEq2]
    omega
  have hy : ((CAFFE_GET_BLOCKS_2D N M).y : Int) = max 1 (min ⌈(N : ℚ) / 16⌉ 128) := by
    simp only [CAFFE_GET_BLOCKS_2D, CAFFE_HIP_NUM_THREADS_2D_DIMY,
      CAFFE_MAXIMUM_NUM_BLOCKS_2D_DIMY, to_uint32]
    rw [hEq2]
    omega
  refine ⟨rfl, hx, hy, ?_, ?_, ?_, ?_, rfl⟩ <;> omega

/-- Witness for C18: for `N = 17` the grid is 2 by 2, whatever `M` is. -/
theorem CAFFE_GET_BLOCKS_2D_ignores_M_witness :
    CAFFE_GET_BLOCKS_2D 17 1 = CAFFE_GET_BLOCKS_2D 17 5000 ∧
    CAFFE_GET_BLOCKS_2D 17 1 = { x := 2, y := 2, z := 1 } :=
  ⟨(CAFFE_GET_BLOCKS_2D_ignores_M 17 1 5000 (by norm_num) (by norm_num)).1, by decide⟩

end caffe2
